import Mathlib

/-!
# Verification of the Fertilizer Calculator core engine

A shallow embedding, in Lean 4, of the Formula Optimization & Stock-Solution
Planning engine of the fertilizer calculator (`scripts/fertilizer-core.js`,
with the static catalog from the data module and the standalone NNLS solver
module).  JavaScript numbers are modelled as exact rationals (every JS float
is a rational); the one genuinely real-valued operation, `Math.sqrt` in the
EC ionic-strength correction, is modelled with `Real.sqrt`, so the EC facing
definitions live in `ℝ` while everything upstream is computable over `ℚ`.

The external HiGHS MILP backend is out of scope for the engine (the engine
builds a model and interprets the returned solution); it is modelled as a
function parameter producing primal values for the dose variables, exactly
where the source delegates to `highs.solve`.
-/

namespace FertCore

/-- A fertilizer's percentage composition (`pct` object).  Keys that are
absent from a JS `pct` object behave exactly like keys holding `0`
everywhere in the core (all reads are `pct.X || 0` / falsy tests), so the
object is modelled as a record of rationals defaulting to `0`. -/
structure Pct where
  N_total : ℚ := 0
  N_NO3 : ℚ := 0
  N_NH4 : ℚ := 0
  N_Urea : ℚ := 0
  P : ℚ := 0
  P2O5 : ℚ := 0
  K : ℚ := 0
  K2O : ℚ := 0
  Ca : ℚ := 0
  CaO : ℚ := 0
  Mg : ℚ := 0
  MgO : ℚ := 0
  S : ℚ := 0
  SO3 : ℚ := 0
  Si : ℚ := 0
  SiO2 : ℚ := 0
  SiOH4 : ℚ := 0
  B : ℚ := 0
  Fe : ℚ := 0
  Mn : ℚ := 0
  Zn : ℚ := 0
  Cu : ℚ := 0
  Mo : ℚ := 0
  Cl : ℚ := 0
  Co : ℚ := 0
  deriving DecidableEq

/-- A catalog fertilizer (display name, aliases and solubility are not
needed by the verified components except solubility, kept for fidelity). -/
structure Fertilizer where
  id : String
  pct : Pct
  solubility_gL : Option ℚ := none
  priority : Option ℚ := none
  deriving DecidableEq

/-- `FERTILIZERS.find(f => f.id === fertId)` -/
def findFert : List Fertilizer → String → Option Fertilizer
  | [], _ => none
  | f :: rest, fid => if f.id = fid then some f else findFert rest fid

/-- `OXIDE_CONVERSIONS` from the data module (stoichiometric mass-fraction
factors, fixed constants). -/
structure OxideConversions where
  P2O5_to_P : ℚ
  K2O_to_K : ℚ
  CaO_to_Ca : ℚ
  MgO_to_Mg : ℚ
  SO3_to_S : ℚ
  SiO2_to_Si : ℚ
  SiOH4_to_Si : ℚ

def OXIDE_CONVERSIONS : OxideConversions where
  P2O5_to_P := 0.43646
  K2O_to_K := 0.83013
  CaO_to_Ca := 0.71469
  MgO_to_Mg := 0.60317
  SO3_to_S := 0.40059
  SiO2_to_Si := 0.46744
  SiOH4_to_Si := 0.2922

/-- `P_to_P2O5 = 1 / OXIDE_CONVERSIONS.P2O5_to_P` as computed by
`solveMilpBrowser` and `optimizeFormula`. -/
def P_to_P2O5 : ℚ := 1 / OXIDE_CONVERSIONS.P2O5_to_P

/-- `K_to_K2O = 1 / OXIDE_CONVERSIONS.K2O_to_K` as computed by
`solveMilpBrowser` and `optimizeFormula`. -/
def K_to_K2O : ℚ := 1 / OXIDE_CONVERSIONS.K2O_to_K

/-- The static fertilizer catalog (`FERTILIZERS` in the data module),
ids, `pct` compositions and solubilities transcribed verbatim. -/
def FERTILIZERS : List Fertilizer := [
  { id := "calcium_nitrate_calcinit_typical",
    pct := { N_total := 15.5, N_NO3 := 14.4, N_NH4 := 1.1, Ca := 19.0 },
    solubility_gL := some 1290 },
  { id := "hydrospeed_cab_max",
    pct := { N_total := 15.0, N_NO3 := 14.3, N_NH4 := 0.7, Ca := 19.3, B := 0.2 },
    solubility_gL := some 1290 },
  { id := "potassium_nitrate_typical",
    pct := { N_total := 13.7, N_NO3 := 13.7, K2O := 46.3 },
    solubility_gL := some 320 },
  { id := "map_typical",
    pct := { N_total := 12.0, N_NH4 := 12.0, P2O5 := 61.0 },
    solubility_gL := some 370 },
  { id := "mkp_typical",
    pct := { P2O5 := 52.0, K2O := 34.0 },
    solubility_gL := some 230 },
  { id := "dap_common",
    pct := { N_total := 18.0, N_NH4 := 18.0, P2O5 := 46.0 },
    solubility_gL := some 580 },
  { id := "ssp_common",
    pct := { P2O5 := 16.0, Ca := 20.0, S := 12.0 },
    solubility_gL := some 20 },
  { id := "urea_common",
    pct := { N_total := 46.0, N_Urea := 46.0 },
    solubility_gL := some 1080 },
  { id := "ammonium_sulfate_common",
    pct := { N_total := 21.0, N_NH4 := 21.0, S := 24.0 },
    solubility_gL := some 750 },
  { id := "ammonium_nitrate_common",
    pct := { N_total := 34.0, N_NO3 := 17.0, N_NH4 := 17.0 },
    solubility_gL := some 1900 },
  { id := "magnesium_sulfate_heptahydrate_common",
    pct := { Mg := 9.86, S := 13.0 },
    solubility_gL := some 710 },
  { id := "magnesium_sulfate_16mgo",
    pct := { MgO := 16.0, Mg := 9.6, S := 13.0 },
    solubility_gL := some 710 },
  { id := "magnesium_nitrate_hexahydrate_typical",
    pct := { N_total := 10.9, N_NO3 := 10.9, Mg := 9.5 },
    solubility_gL := some 420 },
  { id := "potassium_sulfate_common",
    pct := { K2O := 50.0, S := 17.0 },
    solubility_gL := some 120 },
  { id := "potassium_chloride_common",
    pct := { K2O := 60.0, Cl := 47.6 },
    solubility_gL := some 340 },
  { id := "calcium_chloride_dihydrate_common",
    pct := { Ca := 27.2, Cl := 48.3 },
    solubility_gL := some 745 },
  { id := "langbeinite_common",
    pct := { K2O := 22.0, Mg := 11.0, S := 22.0 },
    solubility_gL := some 240 },
  { id := "potassium_schoenite",
    pct := { K2O := 23.0, MgO := 11.0, S := 15.9 },
    solubility_gL := some 220 },
  { id := "uan32_solution_typical",
    pct := { N_total := 32.0, N_Urea := 16.0, N_NO3 := 8.0, N_NH4 := 8.0 },
    solubility_gL := some 1000 },
  { id := "ammonium_thiosulfate_common",
    pct := { N_total := 12.0, N_NH4 := 12.0, S := 26.0 },
    solubility_gL := some 1000 },
  { id := "potassium_thiosulfate_common",
    pct := { K2O := 25.0, S := 17.0 },
    solubility_gL := some 1000 },
  { id := "fe_edta_13",
    pct := { Fe := 13.0 },
    solubility_gL := some 100 },
  { id := "boric_acid_common",
    pct := { B := 17.5 },
    solubility_gL := some 50 },
  { id := "zinc_sulfate_heptahydrate_common",
    pct := { Zn := 22.7, S := 11.2 },
    solubility_gL := some 580 },
  { id := "nitric_acid_38",
    pct := { N_total := 8.4, N_NO3 := 8.4 },
    solubility_gL := some 1000 },
  { id := "nitric_acid_60",
    pct := { N_total := 13.3, N_NO3 := 13.3 },
    solubility_gL := some 1000 },
  { id := "phosphoric_acid_49",
    pct := { P := 18.6 },
    solubility_gL := some 1000 },
  { id := "potassium_bicarbonate",
    pct := { K := 39.0 },
    solubility_gL := some 330 },
  { id := "ammonium_nitrate_liquid",
    pct := { N_total := 18.0, N_NO3 := 9.0, N_NH4 := 9.0 },
    solubility_gL := some 1000 },
  { id := "urea_phosphate",
    pct := { N_total := 17.5, N_Urea := 17.5, P := 19.6 },
    solubility_gL := some 440 },
  { id := "calcium_nitrate_4h2o",
    pct := { N_total := 11.5, N_NO3 := 11.5, Ca := 16.5 },
    solubility_gL := some 1290 },
  { id := "calcium_nitrate_anhydrous",
    pct := { N_total := 15.5, N_NO3 := 15.5, Ca := 18.5 },
    solubility_gL := some 1290 },
  { id := "calcium_nitrate_liquid",
    pct := { N_total := 8.7, N_NO3 := 8.7, Ca := 12.5 },
    solubility_gL := some 1000 },
  { id := "calcium_chloride_solid",
    pct := { Ca := 36.0, Cl := 63.9 },
    solubility_gL := some 745 },
  { id := "calcium_chloride_liquid",
    pct := { Ca := 11.8, Cl := 20.9 },
    solubility_gL := some 1000 },
  { id := "magnesium_sulfate_anhydrous",
    pct := { Mg := 19.6, S := 26.5 },
    solubility_gL := some 350 },
  { id := "magnesium_nitrate_liquid",
    pct := { N_total := 7.0, N_NO3 := 7.0, Mg := 6.1 },
    solubility_gL := some 1000 },
  { id := "fe_dtpa_12",
    pct := { Fe := 12.0 },
    solubility_gL := some 80 },
  { id := "fe_dtpa_liquid_3",
    pct := { Fe := 3.0 },
    solubility_gL := some 1000 },
  { id := "fe_dtpa_liquid_6",
    pct := { Fe := 6.0 },
    solubility_gL := some 1000 },
  { id := "fe_eddha_6",
    pct := { Fe := 6.0 },
    solubility_gL := some 60 },
  { id := "fe_hbed_6",
    pct := { Fe := 6.0 },
    solubility_gL := some 60 },
  { id := "mn_edta_13",
    pct := { Mn := 13.0 },
    solubility_gL := some 100 },
  { id := "zn_edta_15",
    pct := { Zn := 15.0 },
    solubility_gL := some 100 },
  { id := "cu_edta_15",
    pct := { Cu := 15.0 },
    solubility_gL := some 100 },
  { id := "manganese_sulfate",
    pct := { Mn := 32.5, S := 18.9 },
    solubility_gL := some 620 },
  { id := "zinc_sulfate_mono",
    pct := { Zn := 36.0 },
    solubility_gL := some 580 },
  { id := "borax",
    pct := { B := 11.3 },
    solubility_gL := some 50 },
  { id := "copper_sulfate",
    pct := { Cu := 25.5, S := 12.8 },
    solubility_gL := some 320 },
  { id := "sodium_molybdate",
    pct := { Mo := 39.6 },
    solubility_gL := some 560 },
  { id := "ammonium_molybdate",
    pct := { Mo := 52.0, N_total := 8.0, N_NH4 := 8.0 },
    solubility_gL := some 400 },
  { id := "potassium_silicate_liquid_typical",
    pct := { K2O := 18, Si := 12 },
    solubility_gL := some 1000 },
  { id := "rexolin_cxk",
    pct := { Fe := 3.4, Mn := 3.2, Zn := 4.2, B := 1.5, Mg := 1.2, Mo := 0.05 },
    solubility_gL := some 80 },
  { id := "utkarsh_double_combi",
    pct := { Ca := 1.0, Mg := 2.5, Zn := 2.0, Fe := 2.0, Mn := 1.0, B := 1.0,
             Cu := 0.5, Mo := 0.05, Co := 0.005 },
    solubility_gL := some 80 },
  { id := "haifa_17_10_27",
    pct := { N_total := 17, N_NO3 := 11.3, N_NH4 := 5.7, P2O5 := 10, K2O := 27 },
    solubility_gL := some 250 },
  { id := "wsf_13_40_13",
    pct := { N_total := 13.0, N_NO3 := 4.4, N_NH4 := 8.6, P2O5 := 40.0, K2O := 13.0 },
    solubility_gL := some 300 },
  { id := "wsf_12_6_22_12cao",
    pct := { N_total := 12.0, N_NO3 := 12.0, N_NH4 := 0.0, P2O5 := 6.0, K2O := 22.0,
             CaO := 12.0, P := 2.62, K := 18.26, Ca := 8.58 },
    solubility_gL := some 180 },
  { id := "disodium_octaborate_tetrahydrate_20b",
    pct := { B := 20.0 },
    solubility_gL := some 100 },
  { id := "icl_pekacid_pk_acid",
    pct := { P2O5 := 60.0, K2O := 20.0 },
    solubility_gL := some 650 }]

/-- `FERTILIZER_COMPATIBILITY` from the data module: compatibility groups
for the multi-tank system. -/
structure FertilizerCompatibility where
  calcium_sources : List String
  sulfate_sources : List String
  phosphate_sources : List String
  silicate_sources : List String
  neutral : List String

def FERTILIZER_COMPATIBILITY : FertilizerCompatibility where
  calcium_sources := [
    "calcium_nitrate_calcinit_typical",
    "hydrospeed_cab_max",
    "calcium_nitrate_4h2o",
    "calcium_nitrate_anhydrous",
    "calcium_nitrate_liquid",
    "calcium_chloride_dihydrate_common",
    "calcium_chloride_solid",
    "calcium_chloride_liquid"]
  sulfate_sources := [
    "magnesium_sulfate_heptahydrate_common",
    "magnesium_sulfate_anhydrous",
    "potassium_sulfate_common",
    "ammonium_sulfate_common",
    "langbeinite_common",
    "potassium_schoenite",
    "ammonium_thiosulfate_common",
    "potassium_thiosulfate_common",
    "manganese_sulfate",
    "zinc_sulfate_heptahydrate_common",
    "zinc_sulfate_mono",
    "copper_sulfate"]
  phosphate_sources := [
    "map_typical",
    "mkp_typical",
    "dap_common",
    "ssp_typical",
    "phosphoric_acid_49",
    "urea_phosphate",
    "icl_pekacid_pk_acid"]
  silicate_sources := [
    "potassium_silicate_liquid_typical"]
  neutral := [
    "potassium_nitrate_typical",
    "magnesium_nitrate_hexahydrate_typical",
    "magnesium_nitrate_liquid",
    "ammonium_nitrate_common",
    "ammonium_nitrate_liquid",
    "potassium_chloride_common",
    "nitric_acid_38",
    "nitric_acid_60",
    "urea_common",
    "urea_liquid",
    "uan32_solution_typical",
    "potassium_bicarbonate",
    "boric_acid_common",
    "borax",
    "sodium_molybdate",
    "ammonium_molybdate"]

/-! ## Nutrient contribution calculators -/

/-- The 7-nutrient contribution record built by `perGramContrib` inside
`solveMilpBrowser` (`c = { N_total: 0, P2O5: 0, K2O: 0, Ca: 0, Mg: 0, S: 0, Si: 0 }`). -/
structure Contrib7 where
  N_total : ℚ := 0
  P2O5 : ℚ := 0
  K2O : ℚ := 0
  Ca : ℚ := 0
  Mg : ℚ := 0
  S : ℚ := 0
  Si : ℚ := 0
  deriving DecidableEq

/-- `perGramContrib(fert)` from `solveMilpBrowser`: the ppm contributed per
gram of fertilizer at the given volume.  The JS loop walks
`Object.entries(fert.pct)` and accumulates into the seven buckets; since a
missing key and a key holding `0` contribute identically (`ppm = 0`), the
loop is the per-field sum below.  `hasNForms = fert.pct.N_NO3 || fert.pct.N_NH4`
is JS truthiness, i.e. "either speciated form is nonzero". -/
def perGramContrib (volume : ℚ) (fert : Fertilizer) : Contrib7 :=
  let pct := fert.pct
  let ppm : ℚ → ℚ := fun pc => (1 * 1000 * (pc / 100)) / volume
  let hasNForms : Bool := pct.N_NO3 ≠ 0 ∨ pct.N_NH4 ≠ 0
  { N_total := ppm pct.N_NO3 + ppm pct.N_NH4 +
      (if hasNForms then 0 else ppm pct.N_total)
    P2O5 := ppm pct.P2O5 + ppm pct.P * P_to_P2O5
    K2O := ppm pct.K2O + ppm pct.K * K_to_K2O
    Ca := ppm pct.Ca + ppm pct.CaO * OXIDE_CONVERSIONS.CaO_to_Ca
    Mg := ppm pct.Mg + ppm pct.MgO * OXIDE_CONVERSIONS.MgO_to_Mg
    S := ppm pct.S + ppm pct.SO3 * OXIDE_CONVERSIONS.SO3_to_S
    Si := ppm pct.SiO2 * 0.46744 + ppm pct.SiOH4 * 0.2922 + ppm pct.Si }

/-- The `achieved` ppm record of `solveMilpBrowser`
(`{ N_total, N_NO3, N_NH4, P2O5, K2O, P, K, Ca, Mg, S, Si }`). -/
structure Achieved where
  N_total : ℚ := 0
  N_NO3 : ℚ := 0
  N_NH4 : ℚ := 0
  P2O5 : ℚ := 0
  K2O : ℚ := 0
  P : ℚ := 0
  K : ℚ := 0
  Ca : ℚ := 0
  Mg : ℚ := 0
  S : ℚ := 0
  Si : ℚ := 0
  deriving DecidableEq

def Achieved.add (a b : Achieved) : Achieved where
  N_total := a.N_total + b.N_total
  N_NO3 := a.N_NO3 + b.N_NO3
  N_NH4 := a.N_NH4 + b.N_NH4
  P2O5 := a.P2O5 + b.P2O5
  K2O := a.K2O + b.K2O
  P := a.P + b.P
  K := a.K + b.K
  Ca := a.Ca + b.Ca
  Mg := a.Mg + b.Mg
  S := a.S + b.S
  Si := a.Si + b.Si

/-- The per-fertilizer accumulation of `solveMilpBrowser`'s achieved-ppm
loop: `grams` of `fert` dissolved in `volume` liters.  `ppm = (grams * 1000
* (pct / 100)) / volume`; each composition key is routed per the source's
if-chain.  The final `else if (achieved[nutrient] !== undefined)` branch
catches exactly the elemental keys `Ca`, `Mg`, `S` (all other remaining
keys — `N_Urea` and the micronutrients — are absent from `achieved`). -/
def fertContribA (volume : ℚ) (fert : Fertilizer) (grams : ℚ) : Achieved :=
  let pct := fert.pct
  let ppm : ℚ → ℚ := fun pc => (grams * 1000 * (pc / 100)) / volume
  let hasNForms : Bool := pct.N_NO3 ≠ 0 ∨ pct.N_NH4 ≠ 0
  { N_NO3 := ppm pct.N_NO3
    N_NH4 := ppm pct.N_NH4
    N_total := ppm pct.N_NO3 + ppm pct.N_NH4 +
      (if hasNForms then 0 else ppm pct.N_total)
    P2O5 := ppm pct.P2O5 + ppm pct.P * P_to_P2O5
    P := ppm pct.P + ppm pct.P2O5 * OXIDE_CONVERSIONS.P2O5_to_P
    K2O := ppm pct.K2O + ppm pct.K * K_to_K2O
    K := ppm pct.K + ppm pct.K2O * OXIDE_CONVERSIONS.K2O_to_K
    Ca := ppm pct.Ca + ppm pct.CaO * OXIDE_CONVERSIONS.CaO_to_Ca
    Mg := ppm pct.Mg + ppm pct.MgO * OXIDE_CONVERSIONS.MgO_to_Mg
    S := ppm pct.S + ppm pct.SO3 * OXIDE_CONVERSIONS.SO3_to_S
    Si := ppm pct.SiO2 * 0.46744 + ppm pct.SiOH4 * 0.2922 + ppm pct.Si }

/-- `solveMilpBrowser`'s achieved-ppm computation over a whole formula:
for each `(fertId, grams)` entry, look the fertilizer up in the candidate
list and accumulate its contribution (entries whose id is not found are
skipped, `if (!fert) return`). -/
def achievedFromFormula (ferts : List Fertilizer) (volume : ℚ) :
    List (String × ℚ) → Achieved
  | [] => {}
  | (fid, grams) :: rest =>
    (match findFert ferts fid with
      | some fert => fertContribA volume fert grams
      | none => {}).add (achievedFromFormula ferts volume rest)

/-- The elemental 6-nutrient record of `getElementalContributionPerGram`. -/
structure Contrib6 where
  N : ℚ := 0
  P : ℚ := 0
  K : ℚ := 0
  Ca : ℚ := 0
  Mg : ℚ := 0
  S : ℚ := 0
  deriving DecidableEq

/-- `getElementalContributionPerGram(fert)`: ppm per gram per liter on the
elemental basis.  Every branch of the source is a JS truthiness test
(`if (pct.P) ... else if (pct.P2O5) ...`), modelled as `≠ 0`. -/
def getElementalContributionPerGram (fert : Fertilizer) : Contrib6 :=
  let pct := fert.pct
  { N := if pct.N_NO3 ≠ 0 ∨ pct.N_NH4 ≠ 0 then (pct.N_NO3 + pct.N_NH4) * 10
      else if pct.N_total ≠ 0 then pct.N_total * 10 else 0
    P := if pct.P ≠ 0 then pct.P * 10
      else if pct.P2O5 ≠ 0 then pct.P2O5 * 10 * OXIDE_CONVERSIONS.P2O5_to_P else 0
    K := if pct.K ≠ 0 then pct.K * 10
      else if pct.K2O ≠ 0 then pct.K2O * 10 * OXIDE_CONVERSIONS.K2O_to_K else 0
    Ca := if pct.Ca ≠ 0 then pct.Ca * 10
      else if pct.CaO ≠ 0 then pct.CaO * 10 * OXIDE_CONVERSIONS.CaO_to_Ca else 0
    Mg := if pct.Mg ≠ 0 then pct.Mg * 10
      else if pct.MgO ≠ 0 then pct.MgO * 10 * OXIDE_CONVERSIONS.MgO_to_Mg else 0
    S := if pct.S ≠ 0 then pct.S * 10
      else if pct.SO3 ≠ 0 then pct.SO3 * 10 * OXIDE_CONVERSIONS.SO3_to_S else 0 }

/-! ## Tank compatibility assignment -/

/-- The compatibility classes returned by `getCompatibilityTag`. -/
inductive Tag
  | calcium
  | phosphate
  | sulfate
  | silicate
  | neutral
  deriving DecidableEq

/-- `getCompatibilityTag(fertId)`: first matching compatibility group, in
the source's order calcium → phosphate → sulfate → silicate, else neutral. -/
def getCompatibilityTag (fertId : String) : Tag :=
  let compat := FERTILIZER_COMPATIBILITY
  if fertId ∈ compat.calcium_sources then .calcium
  else if fertId ∈ compat.phosphate_sources then .phosphate
  else if fertId ∈ compat.sulfate_sources then .sulfate
  else if fertId ∈ compat.silicate_sources then .silicate
  else .neutral

inductive TankKey
  | A
  | B
  | C
  | D
  deriving DecidableEq

/-- The tank chosen by the body of `assignToTanks`'s loop for one active
formula entry: the `separateMg` early route to Tank D, then the
compatibility `switch`.  `hasSignificantK = fert.pct.K2O > 20`,
`hasP = fert.pct.P2O5 > 5`, `hasMg = pct.Mg > 0 || pct.MgO > 0`
(all `false` when the id is not in the catalog, as in the source where
`fert` is `undefined`). -/
def tankFor (numTanks : ℕ) (separateMg : Bool) (fertId : String) : TankKey :=
  let tag := getCompatibilityTag fertId
  let fert := findFert FERTILIZERS fertId
  let hasSignificantK : Bool := fert.elim false fun f => 20 < f.pct.K2O
  let hasP : Bool := fert.elim false fun f => 5 < f.pct.P2O5
  let hasMg : Bool := fert.elim false fun f => 0 < f.pct.Mg ∨ 0 < f.pct.MgO
  if separateMg && decide (4 ≤ numTanks) && hasMg && !hasP && !hasSignificantK then
    .D
  else
    match tag with
    | .calcium => .A
    | .phosphate => .B
    | .sulfate =>
        if decide (3 ≤ numTanks) && hasSignificantK && !hasP then .C else .B
    | .silicate =>
        if 4 ≤ numTanks then .D else if 3 ≤ numTanks then .C else .B
    | .neutral =>
        if decide (3 ≤ numTanks) && hasSignificantK && !hasP then .C else .B

/-- The four tank contents built by `assignToTanks` (tanks that the
requested count does not create simply stay empty, as no entry routes to
them: `C` requires `numTanks ≥ 3` on every route and `D` requires
`numTanks ≥ 4`). -/
structure TankAssignment where
  A : List (String × ℚ)
  B : List (String × ℚ)
  C : List (String × ℚ)
  D : List (String × ℚ)

/-- `assignToTanks(formula, numTanks, { separateMg })`: entries with
nonpositive grams are skipped (`if (!grams || grams <= 0) continue`), the
rest are routed by `tankFor`. -/
def assignToTanks (formula : List (String × ℚ)) (numTanks : ℕ)
    (separateMg : Bool) : TankAssignment :=
  let active := formula.filter fun p => 0 < p.2
  { A := active.filter fun p => tankFor numTanks separateMg p.1 = .A
    B := active.filter fun p => tankFor numTanks separateMg p.1 = .B
    C := active.filter fun p => tankFor numTanks separateMg p.1 = .C
    D := active.filter fun p => tankFor numTanks separateMg p.1 = .D }

/-! ## EC estimation -/

/-- JS object lookup (`TABLE[key]`) over an association table.  All table
values are nonzero, so JS truthiness of `TABLE[ion]` coincides with key
presence. -/
def tblGet (tbl : List (String × ℚ)) (s : String) : Option ℚ :=
  match tbl with
  | [] => none
  | (k, v) :: rest => if s = k then some v else tblGet rest s

/-- `IONIC_MOLAR_CONDUCTIVITY` (λ in S·cm²/mol at 25 °C) from the data
module. -/
def IONIC_MOLAR_CONDUCTIVITY : List (String × ℚ) := [
  ("K+", 73.5), ("Na+", 50.1), ("NH4+", 73.5), ("Ca2+", 119.0),
  ("Mg2+", 106.0), ("Fe2+", 108.0), ("Fe3+", 204.0), ("Mn2+", 107.0),
  ("Zn2+", 105.6), ("Cu2+", 107.2),
  ("NO3-", 71.5), ("Cl-", 76.3), ("SO4^2-", 160.0), ("H2PO4-", 33.5),
  ("HPO4^2-", 114.0), ("HCO3-", 44.5), ("OH-", 198.0), ("H+", 349.8)]

/-- `ION_CHARGES` from the data module. -/
def ION_CHARGES : List (String × ℚ) := [
  ("K+", 1), ("Na+", 1), ("NH4+", 1), ("Ca2+", 2), ("Mg2+", 2), ("Fe2+", 2),
  ("Fe3+", 3), ("Mn2+", 2), ("Zn2+", 2), ("Cu2+", 2),
  ("NO3-", 1), ("Cl-", 1), ("SO4^2-", 2), ("H2PO4-", 1), ("HPO4^2-", 2),
  ("HCO3-", 1), ("OH-", 1), ("H+", 1)]

/-- Options of `estimateEC` with the source's defaults. -/
structure ECOptions where
  temperatureC : ℚ := 25
  applyIonicStrengthCorrection : Bool := true
  ionicStrengthK : ℚ := 0.5

/-- One ion's contribution to `ec_raw`: counted only when the conductivity
lookup is truthy and the concentration is strictly positive
(`if (IONIC_MOLAR_CONDUCTIVITY[ion] && c_mmolL > 0)`). -/
def condContrib (q : String × ℚ) : ℚ :=
  match tblGet IONIC_MOLAR_CONDUCTIVITY q.1 with
  | some lam => if 0 < q.2 then 0.001 * lam * q.2 else 0
  | none => 0

/-- `ec_raw` accumulated over all entries of the ion map. -/
def rawECOf (ions : List (String × ℚ)) : ℚ := (ions.map condContrib).sum

/-- One ion's contribution to the ionic-strength accumulator: counted only
when the charge lookup is truthy and the concentration is strictly
positive (`if (ION_CHARGES[ion] && c_mmolL > 0)`), as `(c/1000)·z²`. -/
def strengthContrib (q : String × ℚ) : ℚ :=
  match tblGet ION_CHARGES q.1 with
  | some z => if 0 < q.2 then q.2 / 1000 * z * z else 0
  | none => 0

/-- `ionicStrength` of `estimateEC` (accumulated, then halved). -/
def ionicStrengthOf (ions : List (String × ℚ)) : ℚ :=
  (ions.map strengthContrib).sum / 2

/-- The result record of `estimateEC` (the per-ion `contributions` detail
map, used only for display, is omitted). -/
structure ECResult where
  ec_mS_cm : ℝ
  ec_at_temp : ℝ
  ionicStrength : ℚ
  rawEC : ℚ

/-- `estimateEC(ions_mmolL, options)`: sum-of-ionic-conductivities raw EC,
ionic strength, optional ionic-strength correction
(`ec_25 = ec_raw / (1 + k·√I)` only when enabled and `I > 0`), and the
temperature correction `ec_at_temp = ec_25 · (1 + 0.02·(T − 25))`. -/
noncomputable def estimateEC (ions : List (String × ℚ)) (options : ECOptions) :
    ECResult :=
  let ec_raw := rawECOf ions
  let ionicStrength := ionicStrengthOf ions
  let ec_25 : ℝ :=
    if options.applyIonicStrengthCorrection = true ∧ 0 < ionicStrength then
      (ec_raw : ℝ) /
        (1 + (options.ionicStrengthK : ℝ) * Real.sqrt (ionicStrength : ℝ))
    else (ec_raw : ℝ)
  { ec_mS_cm := ec_25
    ec_at_temp := ec_25 * (1 + 0.02 * ((options.temperatureC : ℝ) - 25))
    ionicStrength := ionicStrength
    rawEC := ec_raw }

/-- `EC_ION_MOLAR_MASSES` (g/mol of the counted element per ion). -/
def EC_ION_MOLAR_MASSES : List (String × ℚ) := [
  ("NO3-", 14.007), ("NH4+", 14.007), ("H2PO4-", 30.974), ("K+", 39.098),
  ("Ca2+", 40.078), ("Mg2+", 24.305), ("SO4^2-", 32.065), ("Na+", 22.99),
  ("Cl-", 35.453), ("Fe2+", 55.845), ("Mn2+", 54.938), ("Zn2+", 65.38),
  ("Cu2+", 63.546)]

/-- A ppm nutrient profile (the keys read by `ppmToIonsForEC`, plus the
solver's achieved keys; missing JS keys read as `0`). -/
structure PpmProfile where
  N_total : ℚ := 0
  N_NO3 : ℚ := 0
  N_NH4 : ℚ := 0
  P2O5 : ℚ := 0
  K2O : ℚ := 0
  P : ℚ := 0
  K : ℚ := 0
  Ca : ℚ := 0
  Mg : ℚ := 0
  S : ℚ := 0
  Si : ℚ := 0
  Na : ℚ := 0
  Cl : ℚ := 0
  Fe : ℚ := 0
  Mn : ℚ := 0
  Zn : ℚ := 0
  Cu : ℚ := 0
  deriving DecidableEq

/-- `PPM_TO_ION_MAPPINGS`: ppm key (as accessor) paired with ion symbol. -/
def PPM_TO_ION_MAPPINGS : List ((PpmProfile → ℚ) × String) := [
  (fun p => p.N_NO3, "NO3-"), (fun p => p.N_NH4, "NH4+"),
  (fun p => p.P, "H2PO4-"), (fun p => p.K, "K+"), (fun p => p.Ca, "Ca2+"),
  (fun p => p.Mg, "Mg2+"), (fun p => p.S, "SO4^2-"), (fun p => p.Na, "Na+"),
  (fun p => p.Cl, "Cl-"), (fun p => p.Fe, "Fe2+"), (fun p => p.Mn, "Mn2+"),
  (fun p => p.Zn, "Zn2+"), (fun p => p.Cu, "Cu2+")]

/-- One step of `ppmToIonsForEC`'s loop: an entry is emitted only when
`ppm > 0` and the molar mass is known, with value `ppm / molarMass`. -/
def ionOfMapping (p : PpmProfile) (m : (PpmProfile → ℚ) × String) :
    Option (String × ℚ) :=
  match tblGet EC_ION_MOLAR_MASSES m.2 with
  | some mm => if 0 < m.1 p then some (m.2, m.1 p / mm) else none
  | none => none

/-- `ppmToIonsForEC(ppmResults)`: ion concentrations in mmol/L. -/
def ppmToIonsForEC (p : PpmProfile) : List (String × ℚ) :=
  PPM_TO_ION_MAPPINGS.filterMap (ionOfMapping p)

/-- `estimateECFromPPM` (the per-ion display details it attaches to
`contributions` do not affect the EC values). -/
noncomputable def estimateECFromPPM (p : PpmProfile) (options : ECOptions) :
    ECResult :=
  estimateEC (ppmToIonsForEC p) options

/-- Pointwise scaling of a ppm profile (used to state the EC-doubling
property: "multiply every ppm value by `s`"). -/
def smulP (s : ℚ) (p : PpmProfile) : PpmProfile where
  N_total := s * p.N_total
  N_NO3 := s * p.N_NO3
  N_NH4 := s * p.N_NH4
  P2O5 := s * p.P2O5
  K2O := s * p.K2O
  P := s * p.P
  K := s * p.K
  Ca := s * p.Ca
  Mg := s * p.Mg
  S := s * p.S
  Si := s * p.Si
  Na := s * p.Na
  Cl := s * p.Cl
  Fe := s * p.Fe
  Mn := s * p.Mn
  Zn := s * p.Zn
  Cu := s * p.Cu

/-- The spec's raw-EC formula, written as the spec states it: `0.001·Σ(λᵢ·cᵢ)`
over the ions present with a known molar conductivity and positive
concentration. -/
def specRawEC (ions : List (String × ℚ)) : ℚ :=
  ((ions.filter fun q =>
      (tblGet IONIC_MOLAR_CONDUCTIVITY q.1).isSome ∧ 0 < q.2).map fun q =>
    0.001 * ((tblGet IONIC_MOLAR_CONDUCTIVITY q.1).getD 0) * q.2).sum

/-- The spec's ionic-strength formula: `½·Σ((cᵢ/1000)·zᵢ²)` over the ions
with a known charge. -/
def specIonicStrength (ions : List (String × ℚ)) : ℚ :=
  1 / 2 * ((ions.filter fun q => (tblGet ION_CHARGES q.1).isSome).map fun q =>
    q.2 / 1000 * ((tblGet ION_CHARGES q.1).getD 0) ^ 2).sum

/-! ## Progressive-K stock-solution planning -/

/-- A target's nutrient ratio (`{N, P, K, Ca, Mg, S}`). -/
structure Ratio6 where
  N : ℚ := 0
  P : ℚ := 0
  K : ℚ := 0
  Ca : ℚ := 0
  Mg : ℚ := 0
  S : ℚ := 0
  deriving DecidableEq

/-- A dosing target of `calculateStockSolutions`. -/
structure Target where
  id : String
  ratio : Ratio6 := {}
  targetEC : ℚ := 0
  baselineEC : Option ℚ := none
  maxDosingML : Option ℚ := none
  finalLiters : Option ℚ := none

/-- The outcome of `calculateStockSolutions`: an early structured failure
(`{success:false, errors:[{code}]}`) or the record returned by a
`_tryStockSolutionWithKTanks` attempt. -/
inductive StockOutcome (α : Type) where
  | failure (code : String)
  | result (r : α)

/-- `calculateStockSolutions(options)`: the guards (no targets, no
fertilizer ids, no valid catalog fertilizers) followed by the
Progressive-K loop `for (numTanks = 2; numTanks <= 4; numTanks++)` that
returns the first successful attempt, and the K = 4 attempt (successful
or not) otherwise — the loop's `if (numTanks === 4) return result` makes
the trailing INFEASIBLE return unreachable.
`_tryStockSolutionWithKTanks` awaits the external MILP solver, so the
attempt is abstracted as the function `tryK` of the tank count, with
`success` reading its success flag; the loop itself varies only the tank
count between attempts. -/
def calculateStockSolutions {α : Type} (success : α → Bool)
    (targets : List Target) (availableFertilizers : List String)
    (catalog : List Fertilizer) (tryK : ℕ → α) : StockOutcome α :=
  if targets.isEmpty then .failure "NO_TARGETS"
  else if availableFertilizers.isEmpty then .failure "NO_FERTILIZERS"
  else
    let fertObjects := availableFertilizers.filterMap (findFert catalog)
    if fertObjects.isEmpty then .failure "NO_VALID_FERTILIZERS"
    else if success (tryK 2) then .result (tryK 2)
    else if success (tryK 3) then .result (tryK 3)
    else .result (tryK 4)

/-! ## The formula optimizer (`solveMilpBrowser` / `optimizeFormula`)

JS numbers are IEEE floats; inside the optimizer the EC scale factor is a
quotient involving `Math.sqrt`, so every quantity flowing through
`optimizeFormula` is modelled in `ℝ` (the EC-estimator and contribution
claims above are stated over `ℚ` because all their inputs are exact
rationals; the definitions below are the same source functions at `ℝ`,
reading the same rational data tables). -/

/-- `solveMilpBrowser`'s achieved record, real-valued. -/
structure AchievedR where
  N_total : ℝ := 0
  N_NO3 : ℝ := 0
  N_NH4 : ℝ := 0
  P2O5 : ℝ := 0
  K2O : ℝ := 0
  P : ℝ := 0
  K : ℝ := 0
  Ca : ℝ := 0
  Mg : ℝ := 0
  S : ℝ := 0
  Si : ℝ := 0

def AchievedR.add (a b : AchievedR) : AchievedR where
  N_total := a.N_total + b.N_total
  N_NO3 := a.N_NO3 + b.N_NO3
  N_NH4 := a.N_NH4 + b.N_NH4
  P2O5 := a.P2O5 + b.P2O5
  K2O := a.K2O + b.K2O
  P := a.P + b.P
  K := a.K + b.K
  Ca := a.Ca + b.Ca
  Mg := a.Mg + b.Mg
  S := a.S + b.S
  Si := a.Si + b.Si

/-- `Object.entries(achieved).map(([k, v]) => v * scaleFactor)`: the
uniform scaling applied by the EC convergence loop. -/
def smulAR (s : ℝ) (a : AchievedR) : AchievedR where
  N_total := a.N_total * s
  N_NO3 := a.N_NO3 * s
  N_NH4 := a.N_NH4 * s
  P2O5 := a.P2O5 * s
  K2O := a.K2O * s
  P := a.P * s
  K := a.K * s
  Ca := a.Ca * s
  Mg := a.Mg * s
  S := a.S * s
  Si := a.Si * s

/-- `fertContribA` at `ℝ` (the same source accumulation). -/
noncomputable def fertContribAR (volume : ℝ) (fert : Fertilizer)
    (grams : ℝ) : AchievedR :=
  let pct := fert.pct
  let ppm : ℚ → ℝ := fun pc => (grams * 1000 * ((pc : ℝ) / 100)) / volume
  let hasNForms : Bool := pct.N_NO3 ≠ 0 ∨ pct.N_NH4 ≠ 0
  { N_NO3 := ppm pct.N_NO3
    N_NH4 := ppm pct.N_NH4
    N_total := ppm pct.N_NO3 + ppm pct.N_NH4 +
      (if hasNForms then 0 else ppm pct.N_total)
    P2O5 := ppm pct.P2O5 + ppm pct.P * (P_to_P2O5 : ℝ)
    P := ppm pct.P + ppm pct.P2O5 * (OXIDE_CONVERSIONS.P2O5_to_P : ℝ)
    K2O := ppm pct.K2O + ppm pct.K * (K_to_K2O : ℝ)
    K := ppm pct.K + ppm pct.K2O * (OXIDE_CONVERSIONS.K2O_to_K : ℝ)
    Ca := ppm pct.Ca + ppm pct.CaO * (OXIDE_CONVERSIONS.CaO_to_Ca : ℝ)
    Mg := ppm pct.Mg + ppm pct.MgO * (OXIDE_CONVERSIONS.MgO_to_Mg : ℝ)
    S := ppm pct.S + ppm pct.SO3 * (OXIDE_CONVERSIONS.SO3_to_S : ℝ)
    Si := ppm pct.SiO2 * 0.46744 + ppm pct.SiOH4 * 0.2922 + ppm pct.Si }

/-- `achievedFromFormula` at `ℝ`. -/
noncomputable def achievedFromFormulaR (ferts : List Fertilizer) (volume : ℝ) :
    List (String × ℝ) → AchievedR
  | [] => {}
  | (fid, grams) :: rest =>
    (match findFert ferts fid with
      | some fert => fertContribAR volume fert grams
      | none => {}).add (achievedFromFormulaR ferts volume rest)

/-- A ppm profile at `ℝ` (input of the EC path inside the optimizer). -/
structure PpmProfileR where
  N_total : ℝ := 0
  N_NO3 : ℝ := 0
  N_NH4 : ℝ := 0
  P2O5 : ℝ := 0
  K2O : ℝ := 0
  P : ℝ := 0
  K : ℝ := 0
  Ca : ℝ := 0
  Mg : ℝ := 0
  S : ℝ := 0
  Si : ℝ := 0
  Na : ℝ := 0
  Cl : ℝ := 0
  Fe : ℝ := 0
  Mn : ℝ := 0
  Zn : ℝ := 0
  Cu : ℝ := 0

/-- The achieved record fed to `estimateECFromPPM` (the ppm keys it reads
that are absent from `achieved` — Na, Cl and the micro cations — read as
zero). -/
def toProfileR (a : AchievedR) : PpmProfileR where
  N_total := a.N_total
  N_NO3 := a.N_NO3
  N_NH4 := a.N_NH4
  P2O5 := a.P2O5
  K2O := a.K2O
  P := a.P
  K := a.K
  Ca := a.Ca
  Mg := a.Mg
  S := a.S
  Si := a.Si

/-- `PPM_TO_ION_MAPPINGS` read against a real-valued profile. -/
def PPM_TO_ION_MAPPINGS_R : List ((PpmProfileR → ℝ) × String) := [
  (fun p => p.N_NO3, "NO3-"), (fun p => p.N_NH4, "NH4+"),
  (fun p => p.P, "H2PO4-"), (fun p => p.K, "K+"), (fun p => p.Ca, "Ca2+"),
  (fun p => p.Mg, "Mg2+"), (fun p => p.S, "SO4^2-"), (fun p => p.Na, "Na+"),
  (fun p => p.Cl, "Cl-"), (fun p => p.Fe, "Fe2+"), (fun p => p.Mn, "Mn2+"),
  (fun p => p.Zn, "Zn2+"), (fun p => p.Cu, "Cu2+")]

noncomputable def ionOfMappingR (p : PpmProfileR)
    (m : (PpmProfileR → ℝ) × String) : Option (String × ℝ) :=
  match tblGet EC_ION_MOLAR_MASSES m.2 with
  | some mm => if 0 < m.1 p then some (m.2, m.1 p / (mm : ℝ)) else none
  | none => none

noncomputable def ppmToIonsForECR (p : PpmProfileR) : List (String × ℝ) :=
  PPM_TO_ION_MAPPINGS_R.filterMap (ionOfMappingR p)

noncomputable def condContribR (q : String × ℝ) : ℝ :=
  match tblGet IONIC_MOLAR_CONDUCTIVITY q.1 with
  | some lam => if 0 < q.2 then 0.001 * (lam : ℝ) * q.2 else 0
  | none => 0

noncomputable def rawECOfR (ions : List (String × ℝ)) : ℝ :=
  (ions.map condContribR).sum

noncomputable def strengthContribR (q : String × ℝ) : ℝ :=
  match tblGet ION_CHARGES q.1 with
  | some z => if 0 < q.2 then q.2 / 1000 * (z : ℝ) * (z : ℝ) else 0
  | none => 0

noncomputable def ionicStrengthOfR (ions : List (String × ℝ)) : ℝ :=
  (ions.map strengthContribR).sum / 2

/-- `estimateEC` at `ℝ` inputs: identical structure to the rational
version above. -/
noncomputable def estimateECR (ions : List (String × ℝ))
    (options : ECOptions) : ℝ :=
  let ec_raw := rawECOfR ions
  let ionicStrength := ionicStrengthOfR ions
  if options.applyIonicStrengthCorrection = true ∧ 0 < ionicStrength then
    ec_raw / (1 + (options.ionicStrengthK : ℝ) * Real.sqrt ionicStrength)
  else ec_raw

/-- `estimateECFromPPM(achieved).ec_mS_cm` as invoked by the EC
convergence loop. -/
noncomputable def ecOfAchievedR (a : AchievedR) : ℝ :=
  estimateECR (ppmToIonsForECR (toProfileR a)) {}

/-- The seven tracked ppm targets handed to the MILP model
(`['N_total','P2O5','K2O','Ca','Mg','S','Si']`). -/
structure Targets7 where
  N_total : ℝ := 0
  P2O5 : ℝ := 0
  K2O : ℝ := 0
  Ca : ℝ := 0
  Mg : ℝ := 0
  S : ℝ := 0
  Si : ℝ := 0

/-- `{formula, achieved}` from `solveMilpBrowser`. -/
structure MilpResult where
  formula : List (String × ℝ)
  achieved : AchievedR

/-- The engine side of `solveMilpBrowser` once the dependencies are
available: the model construction (big-M linking, ±tolerance constraints
with penalized slacks, the optional PeKacid cap / fill incentive, the
priority objective) is handed to the external HiGHS backend, whose solve
is the `milpSolve` parameter, yielding the primal value of each dose
variable `x_<id>` for the given targets (the tolerance and PeKacid limit
influence only that external model, so they are absorbed into
`milpSolve`).  The engine's own work is interpreting the solution:
keeping doses above `1e-4` grams and recomputing the achieved ppm from
the resulting formula. -/
noncomputable def solveMilpCore (milpSolve : Targets7 → String → ℝ)
    (fertilizers : List Fertilizer) (targets : Targets7) (volume : ℝ) :
    MilpResult :=
  let primal := milpSolve targets
  let formula := fertilizers.filterMap fun f =>
    if 1e-4 < primal f.id then some (f.id, primal f.id) else none
  { formula := formula
    achieved := achievedFromFormulaR fertilizers volume formula }

/-- `solveMilpBrowser`: `throw new Error('MILP dependencies not loaded')`
when `window.LPModel` is absent, else the solve/interpretation above. -/
noncomputable def solveMilpBrowser (lpModelLoaded : Bool)
    (milpSolve : Targets7 → String → ℝ) (fertilizers : List Fertilizer)
    (targets : Targets7) (volume : ℝ) : Except String MilpResult :=
  if !lpModelLoaded then
    .error "MILP dependencies not loaded"
  else
    .ok (solveMilpCore milpSolve fertilizers targets volume)

/-- The EC convergence loop (`for (let i = 0; i < 5; i++)`), returning
the scale factor actually applied to the returned formula/achieved: each
iteration scales by the current factor, stops once the resulting EC is
within 1 % of the target, and otherwise multiplies the factor by
`targetEC / currentEC`; after the final iteration the last applied factor
stands even if unconverged. -/
noncomputable def ecScaleLoop (g : ℝ → ℝ) (t : ℝ) : ℕ → ℝ → ℝ
  | 0, s => s
  | 1, s => s
  | fuel + 2, s =>
    if |g s - t| / t < 0.01 then s
    else ecScaleLoop g t (fuel + 1) (s * (t / g s))

/-- The caller's target ratios (keys `N, P, K, Ca, Mg, S, Si`). -/
structure RatioTargets where
  N : ℝ := 0
  P : ℝ := 0
  K : ℝ := 0
  Ca : ℝ := 0
  Mg : ℝ := 0
  S : ℝ := 0
  Si : ℝ := 0

/-- `mode` of `optimizeFormula`. -/
inductive Mode
  | elemental
  | oxide
  deriving DecidableEq

/-- The optimizer options read by `optimizeFormula` (`targetEC = 0`
models an absent/falsy `options.targetEC`). -/
structure OptOptions where
  useAbsoluteTargets : Bool := false
  targetEC : ℝ := 0
  pekacidMaxLimit : ℝ := 0

/-- `Math.min(...values)` over a nonempty list (`1` when empty, per the
source's guard). -/
noncomputable def listMin : List ℝ → ℝ
  | [] => 1
  | v :: rest => rest.foldl min v

/-- The absolute ppm targets computed by `optimizeFormula`: either the
caller's absolute values (P/K converted to oxide basis in elemental mode)
or the ratio normalized to its minimum positive component and scaled to
`concentration` ppm; `Si` is never ratio-normalized. -/
noncomputable def ppmTargetsOf (targetRatios : RatioTargets)
    (concentration : ℝ) (mode : Mode) (useAbsoluteTargets : Bool) :
    Targets7 :=
  if useAbsoluteTargets then
    { N_total := targetRatios.N
      P2O5 := if mode = .elemental then targetRatios.P * (P_to_P2O5 : ℝ)
        else targetRatios.P
      K2O := if mode = .elemental then targetRatios.K * (K_to_K2O : ℝ)
        else targetRatios.K
      Ca := targetRatios.Ca
      Mg := targetRatios.Mg
      S := targetRatios.S
      Si := targetRatios.Si }
  else
    let ratioValues := [targetRatios.N, targetRatios.P, targetRatios.K,
      targetRatios.Ca, targetRatios.Mg, targetRatios.S].filter fun v => 0 < v
    let minR := if ratioValues.isEmpty then 1 else listMin ratioValues
    let basePPM := concentration
    { N_total := targetRatios.N / minR * basePPM
      P2O5 := if mode = .elemental
        then targetRatios.P / minR * basePPM * (P_to_P2O5 : ℝ)
        else targetRatios.P / minR * basePPM
      K2O := if mode = .elemental
        then targetRatios.K / minR * basePPM * (K_to_K2O : ℝ)
        else targetRatios.K / minR * basePPM
      Ca := targetRatios.Ca / minR * basePPM
      Mg := targetRatios.Mg / minR * basePPM
      S := targetRatios.S / minR * basePPM
      Si := targetRatios.Si }

/-- The mutable state of the Si adjustment loop. -/
structure SiState where
  scaledFormula : List (String × ℝ)
  scaledAchieved : AchievedR
  scaleFactor : ℝ
  currentSiTarget : ℝ
  bestSiError : ℝ
  bestFormula : List (String × ℝ)
  bestAchieved : AchievedR
  bestScaleFactor : ℝ

/-- One-formula scaling (`scaledFormula[fertId] = grams * scaleFactor`). -/
def scaleFormula (formula : List (String × ℝ)) (s : ℝ) :
    List (String × ℝ) :=
  formula.map fun q => (q.1, q.2 * s)

/-- The Si adjustment loop (`for (let siIter = 0; siIter < 5; siIter++)`):
track the best Si error seen, stop within 10 % of the Si target, else
adjust the Si target (capped at 5× the ask), re-solve the MILP with the
adjusted targets and re-apply the EC scaling loop.  The inner
`solveMilpBrowser` call cannot throw here because this branch only runs
with the dependencies loaded. -/
noncomputable def siLoop (milpSolve : Targets7 → String → ℝ)
    (ferts : List Fertilizer) (volume : ℝ) (ppmTargets : Targets7)
    (t targetSi : ℝ) : ℕ → SiState → SiState
  | 0, st => st
  | fuel + 1, st =>
    let achievedSi := st.scaledAchieved.Si
    let siError := |achievedSi - targetSi|
    let st1 := if siError < st.bestSiError then
        { st with
          bestSiError := siError
          bestFormula := st.scaledFormula
          bestAchieved := st.scaledAchieved
          bestScaleFactor := st.scaleFactor }
      else st
    if siError / targetSi < 0.1 then st1
    else
      let siAdjustmentRat := if 0 < achievedSi then targetSi / achievedSi else 2
      let cur := min (st1.currentSiTarget * siAdjustmentRat) (targetSi * 5)
      let adjusted := solveMilpCore milpSolve ferts
        { ppmTargets with Si := cur } volume
      let adjustedEC := ecOfAchievedR adjusted.achieved
      if 0 < adjustedEC then
        let sF := ecScaleLoop (fun s => ecOfAchievedR (smulAR s adjusted.achieved))
          t 5 (t / adjustedEC)
        siLoop milpSolve ferts volume ppmTargets t targetSi fuel
          { st1 with
            scaledFormula := scaleFormula adjusted.formula sF
            scaledAchieved := smulAR sF adjusted.achieved
            scaleFactor := sF
            currentSiTarget := cur }
      else
        siLoop milpSolve ferts volume ppmTargets t targetSi fuel
          { st1 with currentSiTarget := cur }

/-- The result record of `optimizeFormula` (the `targetRatios` echo and
the `ecScaling` metadata are omitted). -/
structure OptResult where
  formula : List (String × ℝ)
  achieved : AchievedR
  targetPPM : Targets7

/-- `optimizeFormula(targetRatios, volume, availableFertilizers,
concentration, mode, options)`: compute the absolute ppm targets, run the
MILP solve, and — when a positive target EC is requested and the base EC
is positive — apply the EC convergence loop (and, when an absolute Si
target is also set, the Si adjustment loop, keeping the best Si result).
The `typeof solveMilpBrowser !== 'function'` guard of the source can
never fire inside the bundle (the function is defined in the same module)
and is not modelled; the "MILP dependencies not loaded" failure of
`solveMilpBrowser` propagates. -/
noncomputable def optimizeFormula (lpModelLoaded : Bool)
    (milpSolve : Targets7 → String → ℝ) (targetRatios : RatioTargets)
    (volume : ℝ) (availableFertilizers : List Fertilizer)
    (concentration : ℝ) (mode : Mode) (options : OptOptions) :
    Except String OptResult :=
  let ppmTargets := ppmTargetsOf targetRatios concentration mode
    options.useAbsoluteTargets
  match solveMilpBrowser lpModelLoaded milpSolve availableFertilizers
    ppmTargets volume with
  | .error e => .error e
  | .ok milpResult =>
    if 0 < options.targetEC then
      let ec1 := ecOfAchievedR milpResult.achieved
      if 0 < ec1 then
        let t := options.targetEC
        let sF := ecScaleLoop
          (fun s => ecOfAchievedR (smulAR s milpResult.achieved)) t 5 (t / ec1)
        let targetSi := targetRatios.Si
        if 0 < targetSi then
          let st0 : SiState :=
            { scaledFormula := scaleFormula milpResult.formula sF
              scaledAchieved := smulAR sF milpResult.achieved
              scaleFactor := sF
              currentSiTarget := targetSi
              bestSiError := |(smulAR sF milpResult.achieved).Si - targetSi|
              bestFormula := scaleFormula milpResult.formula sF
              bestAchieved := smulAR sF milpResult.achieved
              bestScaleFactor := sF }
          let stF := siLoop milpSolve availableFertilizers volume ppmTargets
            t targetSi 5 st0
          .ok { formula := stF.bestFormula
                achieved := stF.bestAchieved
                targetPPM := ppmTargets }
        else
          .ok { formula := scaleFormula milpResult.formula sF
                achieved := smulAR sF milpResult.achieved
                targetPPM := ppmTargets }
      else
        .ok { formula := milpResult.formula
              achieved := milpResult.achieved
              targetPPM := ppmTargets }
    else
      .ok { formula := milpResult.formula
            achieved := milpResult.achieved
            targetPPM := ppmTargets }

/-- The spec's tolerance invariant over the seven tracked nutrients:
every nutrient with a positive target is achieved within
`tolerance · target`. -/
def withinTolR (tol : ℝ) (t : Targets7) (a : AchievedR) : Prop :=
  (0 < t.N_total → |a.N_total - t.N_total| ≤ tol * t.N_total) ∧
    (0 < t.P2O5 → |a.P2O5 - t.P2O5| ≤ tol * t.P2O5) ∧
    (0 < t.K2O → |a.K2O - t.K2O| ≤ tol * t.K2O) ∧
    (0 < t.Ca → |a.Ca - t.Ca| ≤ tol * t.Ca) ∧
    (0 < t.Mg → |a.Mg - t.Mg| ≤ tol * t.Mg) ∧
    (0 < t.S → |a.S - t.S| ≤ tol * t.S) ∧
    (0 < t.Si → |a.Si - t.Si| ≤ tol * t.Si)

/-- Pointwise scaling of a real profile. -/
def smulPR (p : PpmProfileR) (s : ℝ) : PpmProfileR where
  N_total := p.N_total * s
  N_NO3 := p.N_NO3 * s
  N_NH4 := p.N_NH4 * s
  P2O5 := p.P2O5 * s
  K2O := p.K2O * s
  P := p.P * s
  K := p.K * s
  Ca := p.Ca * s
  Mg := p.Mg * s
  S := p.S * s
  Si := p.Si * s
  Na := p.Na * s
  Cl := p.Cl * s
  Fe := p.Fe * s
  Mn := p.Mn * s
  Zn := p.Zn * s
  Cu := p.Cu * s

/-- The potassium-nitrate catalog entry, used as a one-fertilizer
candidate set. -/
def kno3Fert : Fertilizer where
  id := "potassium_nitrate_typical"
  pct := { N_total := 13.7, N_NO3 := 13.7, K2O := 46.3 }
  solubility_gL := some 320

/-- The achieved profile of 1 g of potassium nitrate in 1 L. -/
noncomputable def kno3Achieved : AchievedR where
  N_total := 137
  N_NO3 := 137
  K2O := 463
  K := 463 * 0.83013

/-- Unwrap an optimizer result (zero result on the error side). -/
noncomputable def okResult (e : Except String OptResult) : OptResult :=
  match e with
  | .ok r => r
  | .error _ => { formula := [], achieved := {}, targetPPM := {} }

/-! ## Theorems -/

/-- No calcium-tagged catalog fertilizer has magnesium content, so a
calcium-tagged fertilizer can never take the `separateMg` route and is
always placed in Tank A. -/
theorem calcium_goes_to_A (numTanks : ℕ) (separateMg : Bool) (fertId : String)
    (h : getCompatibilityTag fertId = Tag.calcium) :
    tankFor numTanks separateMg fertId = TankKey.A := by
  have hmem : fertId ∈ FERTILIZER_COMPATIBILITY.calcium_sources := by
    by_contra hn
    simp only [getCompatibilityTag, if_neg hn] at h
    split_ifs at h <;> simp_all
  have hids : fertId = "calcium_nitrate_calcinit_typical" ∨
      fertId = "hydrospeed_cab_max" ∨
      fertId = "calcium_nitrate_4h2o" ∨
      fertId = "calcium_nitrate_anhydrous" ∨
      fertId = "calcium_nitrate_liquid" ∨
      fertId = "calcium_chloride_dihydrate_common" ∨
      fertId = "calcium_chloride_solid" ∨
      fertId = "calcium_chloride_liquid" := by
    simpa [FERTILIZER_COMPATIBILITY] using hmem
  rcases hids with rfl | rfl | rfl | rfl | rfl | rfl | rfl | rfl <;>
    simp [tankFor, findFert, FERTILIZERS, getCompatibilityTag,
      FERTILIZER_COMPATIBILITY]

/-- Sulfate-, phosphate- and silicate-tagged fertilizers are never placed
in Tank A. -/
theorem incompatible_never_in_A (numTanks : ℕ) (separateMg : Bool)
    (fertId : String)
    (h : getCompatibilityTag fertId = Tag.sulfate ∨
      getCompatibilityTag fertId = Tag.phosphate ∨
      getCompatibilityTag fertId = Tag.silicate) :
    tankFor numTanks separateMg fertId ≠ TankKey.A := by
  rcases h with h | h | h <;> simp only [tankFor, h] <;> split_ifs <;> simp_all

/-- C4: for every formula, every tank count and both `separateMg` flag
values, no tank produced by `assignToTanks` simultaneously contains a
calcium-tagged fertilizer and a sulfate-, phosphate- or silicate-tagged
fertilizer. -/
theorem assignToTanks_compatibility (formula : List (String × ℚ))
    (numTanks : ℕ) (separateMg : Bool)
    (hlo : 2 ≤ numTanks) (hhi : numTanks ≤ 4) :
    ∀ tank ∈ [(assignToTanks formula numTanks separateMg).A,
        (assignToTanks formula numTanks separateMg).B,
        (assignToTanks formula numTanks separateMg).C,
        (assignToTanks formula numTanks separateMg).D],
      ¬ ∃ p ∈ tank, ∃ q ∈ tank,
        getCompatibilityTag p.1 = Tag.calcium ∧
        (getCompatibilityTag q.1 = Tag.sulfate ∨
          getCompatibilityTag q.1 = Tag.phosphate ∨
          getCompatibilityTag q.1 = Tag.silicate) := by
  intro tank htank ⟨p, hp, q, hq, hpcal, hqbad⟩
  have hpA : tankFor numTanks separateMg p.1 = TankKey.A :=
    calcium_goes_to_A numTanks separateMg p.1 hpcal
  have hqA : tankFor numTanks separateMg q.1 ≠ TankKey.A :=
    incompatible_never_in_A numTanks separateMg q.1 hqbad
  simp only [assignToTanks, List.mem_cons, List.not_mem_nil, or_false] at htank
  rcases htank with rfl | rfl | rfl | rfl
  · exact hqA (by simpa using (List.mem_filter.mp hq).2)
  · have := (List.mem_filter.mp hp).2
    simp [hpA] at this
  · have := (List.mem_filter.mp hp).2
    simp [hpA] at this
  · have := (List.mem_filter.mp hp).2
    simp [hpA] at this

/-- Witness for C4: a calcium nitrate + potassium sulfate + MKP formula at
`numTanks = 2`, `separateMg = false`. -/
theorem assignToTanks_compatibility_witness :
    (¬ ∃ p ∈ (assignToTanks
        [("calcium_nitrate_calcinit_typical", 1), ("potassium_sulfate_common", 2),
          ("mkp_typical", 3)] 2 false).A,
      ∃ q ∈ (assignToTanks
        [("calcium_nitrate_calcinit_typical", 1), ("potassium_sulfate_common", 2),
          ("mkp_typical", 3)] 2 false).A,
        getCompatibilityTag p.1 = Tag.calcium ∧
        (getCompatibilityTag q.1 = Tag.sulfate ∨
          getCompatibilityTag q.1 = Tag.phosphate ∨
          getCompatibilityTag q.1 = Tag.silicate)) ∧
    (¬ ∃ p ∈ (assignToTanks
        [("calcium_nitrate_calcinit_typical", 1), ("potassium_sulfate_common", 2),
          ("mkp_typical", 3)] 2 false).B,
      ∃ q ∈ (assignToTanks
        [("calcium_nitrate_calcinit_typical", 1), ("potassium_sulfate_common", 2),
          ("mkp_typical", 3)] 2 false).B,
        getCompatibilityTag p.1 = Tag.calcium ∧
        (getCompatibilityTag q.1 = Tag.sulfate ∨
          getCompatibilityTag q.1 = Tag.phosphate ∨
          getCompatibilityTag q.1 = Tag.silicate)) ∧
    (¬ ∃ p ∈ (assignToTanks
        [("calcium_nitrate_calcinit_typical", 1), ("potassium_sulfate_common", 2),
          ("mkp_typical", 3)] 2 false).C,
      ∃ q ∈ (assignToTanks
        [("calcium_nitrate_calcinit_typical", 1), ("potassium_sulfate_common", 2),
          ("mkp_typical", 3)] 2 false).C,
        getCompatibilityTag p.1 = Tag.calcium ∧
        (getCompatibilityTag q.1 = Tag.sulfate ∨
          getCompatibilityTag q.1 = Tag.phosphate ∨
          getCompatibilityTag q.1 = Tag.silicate)) ∧
    (¬ ∃ p ∈ (assignToTanks
        [("calcium_nitrate_calcinit_typical", 1), ("potassium_sulfate_common", 2),
          ("mkp_typical", 3)] 2 false).D,
      ∃ q ∈ (assignToTanks
        [("calcium_nitrate_calcinit_typical", 1), ("potassium_sulfate_common", 2),
          ("mkp_typical", 3)] 2 false).D,
        getCompatibilityTag p.1 = Tag.calcium ∧
        (getCompatibilityTag q.1 = Tag.sulfate ∨
          getCompatibilityTag q.1 = Tag.phosphate ∨
          getCompatibilityTag q.1 = Tag.silicate)) :=
  ⟨assignToTanks_compatibility
      [("calcium_nitrate_calcinit_typical", 1), ("potassium_sulfate_common", 2),
        ("mkp_typical", 3)] 2 false (by norm_num) (by norm_num) _ (by simp),
    assignToTanks_compatibility
      [("calcium_nitrate_calcinit_typical", 1), ("potassium_sulfate_common", 2),
        ("mkp_typical", 3)] 2 false (by norm_num) (by norm_num) _ (by simp),
    assignToTanks_compatibility
      [("calcium_nitrate_calcinit_typical", 1), ("potassium_sulfate_common", 2),
        ("mkp_typical", 3)] 2 false (by norm_num) (by norm_num) _ (by simp),
    assignToTanks_compatibility
      [("calcium_nitrate_calcinit_typical", 1), ("potassium_sulfate_common", 2),
        ("mkp_typical", 3)] 2 false (by norm_num) (by norm_num) _ (by simp)⟩

theorem rawECOf_cons (q : String × ℚ) (rest : List (String × ℚ)) :
    rawECOf (q :: rest) = condContrib q + rawECOf rest := by
  simp [rawECOf]

theorem ionicStrengthOf_cons (q : String × ℚ) (rest : List (String × ℚ)) :
    ionicStrengthOf (q :: rest) = strengthContrib q / 2 + ionicStrengthOf rest := by
  simp only [ionicStrengthOf, List.map_cons, List.sum_cons]
  ring

/-- The source's raw-EC accumulation coincides with the spec's filtered
sum, unconditionally. -/
theorem rawECOf_eq_spec (ions : List (String × ℚ)) :
    rawECOf ions = specRawEC ions := by
  induction ions with
  | nil => simp [rawECOf, specRawEC]
  | cons q rest ih =>
    rw [rawECOf_cons, ih]
    rcases htbl : tblGet IONIC_MOLAR_CONDUCTIVITY q.1 with _ | lam
    · simp [condContrib, htbl, specRawEC, List.filter_cons]
    · by_cases hc : 0 < q.2 <;>
        simp [condContrib, htbl, hc, specRawEC, List.filter_cons]

/-- The source's ionic-strength accumulation coincides with the spec's
formula on non-negative concentrations. -/
theorem ionicStrengthOf_eq_spec (ions : List (String × ℚ))
    (hnn : ∀ q ∈ ions, 0 ≤ q.2) :
    ionicStrengthOf ions = specIonicStrength ions := by
  induction ions with
  | nil => simp [ionicStrengthOf, specIonicStrength]
  | cons q rest ih =>
    have hq : 0 ≤ q.2 := hnn q (List.mem_cons_self q rest)
    have hrest : ∀ r ∈ rest, 0 ≤ r.2 := fun r hr => hnn r (List.mem_cons_of_mem q hr)
    rw [ionicStrengthOf_cons, ih hrest]
    rcases htbl : tblGet ION_CHARGES q.1 with _ | z
    · simp [strengthContrib, htbl, specIonicStrength, List.filter_cons]
    · have hterm : strengthContrib q = q.2 / 1000 * z ^ 2 := by
        by_cases hc : 0 < q.2
        · simp only [strengthContrib, htbl, if_pos hc]
          ring
        · have hc0 : q.2 = 0 := le_antisymm (not_lt.mp hc) hq
          simp [strengthContrib, htbl, hc0]
      rw [hterm]
      simp [specIonicStrength, List.filter_cons, htbl]
      ring

/-- C5: `estimateEC` computes exactly the spec's formulas: the raw EC is
`0.001·Σ(λᵢ·cᵢ)` over ions with known conductivity and positive
concentration; the ionic strength is `½·Σ((cᵢ/1000)·zᵢ²)` over ions with
known charge; under the default options (correction enabled, `k = 0.5`)
and positive ionic strength the corrected EC is `raw / (1 + 0.5·√I)`; and
`ec_at_temp = ec_mS_cm · (1 + 0.02·(T − 25))`. -/
theorem estimateEC_matches_spec (ions : List (String × ℚ)) (T : ℚ)
    (hnn : ∀ q ∈ ions, 0 ≤ q.2) :
    (estimateEC ions { temperatureC := T }).rawEC = specRawEC ions ∧
      (estimateEC ions { temperatureC := T }).ionicStrength
        = specIonicStrength ions ∧
      (0 < (estimateEC ions { temperatureC := T }).ionicStrength →
        (estimateEC ions { temperatureC := T }).ec_mS_cm
          = ((estimateEC ions { temperatureC := T }).rawEC : ℝ) /
            (1 + 1 / 2 *
              Real.sqrt ((estimateEC ions { temperatureC := T }).ionicStrength : ℝ))) ∧
      (estimateEC ions { temperatureC := T }).ec_at_temp
        = (estimateEC ions { temperatureC := T }).ec_mS_cm *
          (1 + 0.02 * ((T : ℝ) - 25)) := by
  refine ⟨rawECOf_eq_spec ions, ionicStrengthOf_eq_spec ions hnn, ?_, ?_⟩
  · intro hI
    simp only [estimateEC] at hI ⊢
    rw [if_pos ⟨trivial, hI⟩]
    norm_num
  · simp [estimateEC]

/-- Witness for C5: the spec formulas hold for
`{K⁺ ↦ 1 mmol/L, NO₃⁻ ↦ 2 mmol/L}` at 20 °C. -/
theorem estimateEC_matches_spec_witness :
    (estimateEC [("K+", 1), ("NO3-", 2)] { temperatureC := 20 }).rawEC
        = specRawEC [("K+", 1), ("NO3-", 2)] ∧
      (estimateEC [("K+", 1), ("NO3-", 2)] { temperatureC := 20 }).ionicStrength
        = specIonicStrength [("K+", 1), ("NO3-", 2)] ∧
      (0 < (estimateEC [("K+", 1), ("NO3-", 2)] { temperatureC := 20 }).ionicStrength →
        (estimateEC [("K+", 1), ("NO3-", 2)] { temperatureC := 20 }).ec_mS_cm
          = ((estimateEC [("K+", 1), ("NO3-", 2)] { temperatureC := 20 }).rawEC : ℝ) /
            (1 + 1 / 2 *
              Real.sqrt
                ((estimateEC [("K+", 1), ("NO3-", 2)]
                  { temperatureC := 20 }).ionicStrength : ℝ))) ∧
      (estimateEC [("K+", 1), ("NO3-", 2)] { temperatureC := 20 }).ec_at_temp
        = (estimateEC [("K+", 1), ("NO3-", 2)] { temperatureC := 20 }).ec_mS_cm *
          (1 + 0.02 * ((20 : ℝ) - 25)) :=
  estimateEC_matches_spec [("K+", 1), ("NO3-", 2)] 20 (by
    intro q hq
    simp only [List.mem_cons, List.not_mem_nil, or_false] at hq
    rcases hq with rfl | rfl <;> norm_num)

/-- Every value reached by a successful table lookup satisfies any property
holding of all table values. -/
theorem tblGet_prop {P : ℚ → Prop} {tbl : List (String × ℚ)}
    (htbl : ∀ q ∈ tbl, P q.2) {s : String} {v : ℚ}
    (h : tblGet tbl s = some v) : P v := by
  induction tbl with
  | nil => simp [tblGet] at h
  | cons q rest ih =>
    rcases q with ⟨k, w⟩
    simp only [tblGet] at h
    split_ifs at h with hs
    · cases h
      exact htbl _ (List.mem_cons_self _ _)
    · exact ih (fun r hr => htbl r (List.mem_cons_of_mem _ hr)) h

/-- Lookups in two tables with the same key column succeed on the same
keys. -/
theorem tblGet_isSome_congr :
    ∀ (t1 t2 : List (String × ℚ)),
      t1.map Prod.fst = t2.map Prod.fst →
      ∀ s, (tblGet t1 s).isSome = (tblGet t2 s).isSome := by
  intro t1
  induction t1 with
  | nil =>
    intro t2 h s
    cases t2 with
    | nil => rfl
    | cons r rest2 => simp at h
  | cons q rest ih =>
    intro t2 h s
    cases t2 with
    | nil => simp at h
    | cons r rest2 =>
      simp only [List.map_cons, List.cons.injEq] at h
      rcases q with ⟨k, w⟩
      rcases r with ⟨k2, w2⟩
      simp only at h
      simp only [tblGet, h.1]
      split_ifs
      · rfl
      · exact ih rest2 h.2 s

/-- Every ion with an entry in `ION_CHARGES` also has an entry in
`IONIC_MOLAR_CONDUCTIVITY` (the two tables list the same 18 ions), so an
ion missing from the conductivity table contributes to neither
accumulator. -/
theorem charge_entry_has_conductivity {s : String} {z : ℚ}
    (h : tblGet ION_CHARGES s = some z) :
    (tblGet IONIC_MOLAR_CONDUCTIVITY s).isSome := by
  have hkeys : ION_CHARGES.map Prod.fst
      = IONIC_MOLAR_CONDUCTIVITY.map Prod.fst := by
    norm_num [ION_CHARGES, IONIC_MOLAR_CONDUCTIVITY]
  rw [← tblGet_isSome_congr ION_CHARGES IONIC_MOLAR_CONDUCTIVITY hkeys s, h]
  rfl

theorem condContrib_nonneg (q : String × ℚ) : 0 ≤ condContrib q := by
  rcases htbl : tblGet IONIC_MOLAR_CONDUCTIVITY q.1 with _ | lam
  · simp [condContrib, htbl]
  · have hlam : 0 ≤ lam :=
      tblGet_prop (P := fun v => 0 ≤ v)
        (by norm_num [IONIC_MOLAR_CONDUCTIVITY]) htbl
    by_cases hc : 0 < q.2
    · simp only [condContrib, htbl, if_pos hc]
      exact mul_nonneg (mul_nonneg (by norm_num) hlam) hc.le
    · simp [condContrib, htbl, hc]

theorem rawECOf_nonneg (ions : List (String × ℚ)) : 0 ≤ rawECOf ions := by
  apply List.sum_nonneg
  intro x hx
  obtain ⟨q, _, rfl⟩ := List.mem_map.mp hx
  exact condContrib_nonneg q

/-- C10: `estimateEC` is total and safe: an ion with no conductivity entry
or with a non-positive concentration contributes nothing to the raw EC or
to the ionic strength; the raw EC and the corrected EC are non-negative;
and when the ionic strength is zero the correction divisor is skipped
entirely (`ec_mS_cm = rawEC`), so no division by zero can occur (in this
exact-arithmetic model all values are finite by construction, and each
guarded branch of the source is mirrored). -/
theorem estimateEC_total_safe (ions : List (String × ℚ)) (options : ECOptions)
    (hk : 0 ≤ options.ionicStrengthK) (hin : ∀ q ∈ ions, 0 ≤ q.2) :
    (∀ ion c, tblGet IONIC_MOLAR_CONDUCTIVITY ion = none ∨ c ≤ 0 →
        (estimateEC ((ion, c) :: ions) options).rawEC
            = (estimateEC ions options).rawEC ∧
          (estimateEC ((ion, c) :: ions) options).ionicStrength
            = (estimateEC ions options).ionicStrength) ∧
      0 ≤ (estimateEC ions options).rawEC ∧
      0 ≤ (estimateEC ions options).ec_mS_cm ∧
      ((estimateEC ions options).ionicStrength = 0 →
        (estimateEC ions options).ec_mS_cm
          = ((estimateEC ions options).rawEC : ℝ)) := by
  refine ⟨?_, ?_, ?_, ?_⟩
  · intro ion c h
    constructor
    · simp only [estimateEC, rawECOf_cons]
      suffices hz : condContrib (ion, c) = 0 by rw [hz, zero_add]
      rcases h with h | h
      · simp [condContrib, h]
      · unfold condContrib
        rcases tblGet IONIC_MOLAR_CONDUCTIVITY ion with _ | lam
        · rfl
        · exact if_neg (not_lt.mpr h)
    · simp only [estimateEC, ionicStrengthOf_cons]
      suffices hz : strengthContrib (ion, c) = 0 by rw [hz]; ring
      rcases h with h | h
      · have hch : tblGet ION_CHARGES ion = none := by
          rcases hcz : tblGet ION_CHARGES ion with _ | z
          · rfl
          · have := charge_entry_has_conductivity hcz
            rw [h] at this
            simp at this
        simp [strengthContrib, hch]
      · unfold strengthContrib
        rcases tblGet ION_CHARGES ion with _ | z
        · rfl
        · exact if_neg (not_lt.mpr h)
  · exact rawECOf_nonneg ions
  · simp only [estimateEC]
    split_ifs with hcond
    · apply div_nonneg
      · exact_mod_cast rawECOf_nonneg ions
      · have h1 : (0 : ℝ) ≤ (options.ionicStrengthK : ℝ) := by exact_mod_cast hk
        have h2 : (0 : ℝ) ≤ Real.sqrt ((ionicStrengthOf ions : ℚ) : ℝ) :=
          Real.sqrt_nonneg _
        nlinarith
    · exact_mod_cast rawECOf_nonneg ions
  · intro h0
    simp only [estimateEC] at h0 ⊢
    rw [if_neg]
    intro hcond
    rw [h0] at hcond
    exact lt_irrefl 0 hcond.2

/-- Witness for C10: `{K⁺ ↦ 2 mmol/L}` under the default options. -/
theorem estimateEC_total_safe_witness :
    (∀ ion c, tblGet IONIC_MOLAR_CONDUCTIVITY ion = none ∨ c ≤ 0 →
        (estimateEC ((ion, c) :: [("K+", 2)]) {}).rawEC
            = (estimateEC [("K+", 2)] {}).rawEC ∧
          (estimateEC ((ion, c) :: [("K+", 2)]) {}).ionicStrength
            = (estimateEC [("K+", 2)] {}).ionicStrength) ∧
      0 ≤ (estimateEC [("K+", 2)] {}).rawEC ∧
      0 ≤ (estimateEC [("K+", 2)] {}).ec_mS_cm ∧
      ((estimateEC [("K+", 2)] {}).ionicStrength = 0 →
        (estimateEC [("K+", 2)] {}).ec_mS_cm
          = ((estimateEC [("K+", 2)] {}).rawEC : ℝ)) :=
  estimateEC_total_safe [("K+", 2)] {} (by norm_num) (by
    intro q hq
    simp only [List.mem_cons, List.not_mem_nil, or_false] at hq
    subst hq
    norm_num)

theorem condContrib_smul (s : ℚ) (hs : 0 < s) (q : String × ℚ) :
    condContrib (q.1, s * q.2) = s * condContrib q := by
  rcases htbl : tblGet IONIC_MOLAR_CONDUCTIVITY q.1 with _ | lam
  · simp [condContrib, htbl]
  · by_cases hc : 0 < q.2
    · have hc2 : 0 < s * q.2 := mul_pos hs hc
      simp only [condContrib, htbl, if_pos hc, if_pos hc2]
      ring
    · have hc2 : ¬ 0 < s * q.2 :=
        not_lt.mpr (mul_nonpos_of_nonneg_of_nonpos hs.le (not_lt.mp hc))
      simp [condContrib, htbl, if_neg hc, if_neg hc2]

theorem strengthContrib_smul (s : ℚ) (hs : 0 < s) (q : String × ℚ) :
    strengthContrib (q.1, s * q.2) = s * strengthContrib q := by
  rcases htbl : tblGet ION_CHARGES q.1 with _ | z
  · simp [strengthContrib, htbl]
  · by_cases hc : 0 < q.2
    · have hc2 : 0 < s * q.2 := mul_pos hs hc
      simp only [strengthContrib, htbl, if_pos hc, if_pos hc2]
      ring
    · have hc2 : ¬ 0 < s * q.2 :=
        not_lt.mpr (mul_nonpos_of_nonneg_of_nonpos hs.le (not_lt.mp hc))
      simp [strengthContrib, htbl, if_neg hc, if_neg hc2]

theorem rawECOf_smul (s : ℚ) (hs : 0 < s) (l : List (String × ℚ)) :
    rawECOf (l.map fun q => (q.1, s * q.2)) = s * rawECOf l := by
  induction l with
  | nil => simp [rawECOf]
  | cons q rest ih =>
    simp only [List.map_cons, rawECOf_cons, ih, condContrib_smul s hs q]
    ring

theorem ionicStrengthOf_smul (s : ℚ) (hs : 0 < s) (l : List (String × ℚ)) :
    ionicStrengthOf (l.map fun q => (q.1, s * q.2)) = s * ionicStrengthOf l := by
  induction l with
  | nil => simp [ionicStrengthOf]
  | cons q rest ih =>
    simp only [List.map_cons, ionicStrengthOf_cons, ih, strengthContrib_smul s hs q]
    ring

/-- A successful mapping step yields the mapped ion symbol and a positive
concentration (the molar masses in the table are all positive). -/
theorem ionOfMapping_some {p : PpmProfile} {m : (PpmProfile → ℚ) × String}
    {q : String × ℚ} (h : ionOfMapping p m = some q) :
    q.1 = m.2 ∧ 0 < q.2 := by
  rcases htbl : tblGet EC_ION_MOLAR_MASSES m.2 with _ | mm
  · simp [ionOfMapping, htbl] at h
  · have hmm : 0 < mm :=
      tblGet_prop (P := fun v => 0 < v)
        (by norm_num [EC_ION_MOLAR_MASSES]) htbl
    simp only [ionOfMapping, htbl] at h
    split_ifs at h with hc
    · cases h
      exact ⟨rfl, div_pos hc hmm⟩

/-- Scaling every ppm value by a positive factor scales every mapped ion
concentration by the same factor. -/
theorem ppmToIons_smul (s : ℚ) (hs : 0 < s) (p : PpmProfile) :
    ppmToIonsForEC (smulP s p)
      = (ppmToIonsForEC p).map fun q => (q.1, s * q.2) := by
  have hgen : ∀ (ms : List ((PpmProfile → ℚ) × String)),
      (∀ m ∈ ms, m.1 (smulP s p) = s * m.1 p) →
      ms.filterMap (ionOfMapping (smulP s p))
        = (ms.filterMap (ionOfMapping p)).map fun q => (q.1, s * q.2) := by
    intro ms
    induction ms with
    | nil => simp
    | cons m rest ih =>
      intro hlin
      have hm := hlin m (List.mem_cons_self _ _)
      have hrest := fun r hr => hlin r (List.mem_cons_of_mem _ hr)
      rcases htbl : tblGet EC_ION_MOLAR_MASSES m.2 with _ | mm
      · have e1 : ionOfMapping (smulP s p) m = none := by
          simp [ionOfMapping, htbl]
        have e2 : ionOfMapping p m = none := by
          simp [ionOfMapping, htbl]
        rw [List.filterMap_cons_none e1, List.filterMap_cons_none e2, ih hrest]
      · by_cases hc : 0 < m.1 p
        · have hc2 : 0 < m.1 (smulP s p) := by
            rw [hm]; exact mul_pos hs hc
          have hc2' : 0 < s * m.1 p := mul_pos hs hc
          have e1 : ionOfMapping (smulP s p) m = some (m.2, s * m.1 p / mm) := by
            simp only [ionOfMapping, htbl, hm, if_pos hc2']
          have e2 : ionOfMapping p m = some (m.2, m.1 p / mm) := by
            simp only [ionOfMapping, htbl, if_pos hc]
          rw [List.filterMap_cons_some e1, List.filterMap_cons_some e2,
            List.map_cons, ih hrest, mul_div_assoc]
        · have hc2 : ¬ 0 < m.1 (smulP s p) := by
            rw [hm]
            exact not_lt.mpr (mul_nonpos_of_nonneg_of_nonpos hs.le (not_lt.mp hc))
          have e1 : ionOfMapping (smulP s p) m = none := by
            simp only [ionOfMapping, htbl, if_neg hc2]
          have e2 : ionOfMapping p m = none := by
            simp only [ionOfMapping, htbl, if_neg hc]
          rw [List.filterMap_cons_none e1, List.filterMap_cons_none e2, ih hrest]
  apply hgen
  intro m hm
  fin_cases hm <;> simp [smulP]

/-- Every entry of a ppm ion map is positive and drawn from the 13 mapped
ion symbols, all of which have conductivity and charge entries. -/
theorem mem_ppmToIons {p : PpmProfile} {q : String × ℚ}
    (hq : q ∈ ppmToIonsForEC p) :
    0 < q.2 ∧ (tblGet IONIC_MOLAR_CONDUCTIVITY q.1).isSome
      ∧ (tblGet ION_CHARGES q.1).isSome := by
  obtain ⟨m, hm, hsome⟩ := List.mem_filterMap.mp hq
  obtain ⟨hq1, hq2⟩ := ionOfMapping_some hsome
  refine ⟨hq2, ?_, ?_⟩ <;> (rw [hq1]; fin_cases hm <;> rfl)

theorem condContrib_pos {q : String × ℚ} (hc : 0 < q.2)
    (hknown : (tblGet IONIC_MOLAR_CONDUCTIVITY q.1).isSome) :
    0 < condContrib q := by
  rcases htbl : tblGet IONIC_MOLAR_CONDUCTIVITY q.1 with _ | lam
  · rw [htbl] at hknown; simp at hknown
  · have hlam : 0 < lam :=
      tblGet_prop (P := fun v => 0 < v)
        (by norm_num [IONIC_MOLAR_CONDUCTIVITY]) htbl
    simp only [condContrib, htbl, if_pos hc]
    exact mul_pos (mul_pos (by norm_num) hlam) hc

theorem strengthContrib_pos {q : String × ℚ} (hc : 0 < q.2)
    (hknown : (tblGet ION_CHARGES q.1).isSome) :
    0 < strengthContrib q := by
  rcases htbl : tblGet ION_CHARGES q.1 with _ | z
  · rw [htbl] at hknown; simp at hknown
  · have hz : 0 < z :=
      tblGet_prop (P := fun v => 0 < v) (by norm_num [ION_CHARGES]) htbl
    simp only [strengthContrib, htbl, if_pos hc]
    exact mul_pos (mul_pos (div_pos hc (by norm_num)) hz) hz

/-- A nonempty ppm ion map has strictly positive raw EC and ionic
strength. -/
theorem ec_pos_of_ions {p : PpmProfile} (hne : ppmToIonsForEC p ≠ []) :
    0 < rawECOf (ppmToIonsForEC p) ∧ 0 < ionicStrengthOf (ppmToIonsForEC p) := by
  constructor
  · apply List.sum_pos
    · intro x hx
      obtain ⟨q, hq, rfl⟩ := List.mem_map.mp hx
      obtain ⟨h1, h2, _⟩ := mem_ppmToIons hq
      exact condContrib_pos h1 h2
    · simpa using hne
  · apply div_pos _ (by norm_num : (0:ℚ) < 2)
    apply List.sum_pos
    · intro x hx
      obtain ⟨q, hq, rfl⟩ := List.mem_map.mp hx
      obtain ⟨h1, _, h3⟩ := mem_ppmToIons hq
      exact strengthContrib_pos h1 h3
    · simpa using hne

/-- A profile with at least one positive recognized ion maps to a nonempty
ion list. -/
theorem ions_ne_nil_of_pos {p : PpmProfile}
    (hpos : 0 < p.N_NO3 ∨ 0 < p.N_NH4 ∨ 0 < p.P ∨ 0 < p.K ∨ 0 < p.Ca ∨
      0 < p.Mg ∨ 0 < p.S ∨ 0 < p.Na ∨ 0 < p.Cl ∨ 0 < p.Fe ∨ 0 < p.Mn ∨
      0 < p.Zn ∨ 0 < p.Cu) :
    ppmToIonsForEC p ≠ [] := by
  intro hnil
  rw [ppmToIonsForEC, List.filterMap_eq_nil] at hnil
  simp only [PPM_TO_ION_MAPPINGS, List.forall_mem_cons] at hnil
  obtain ⟨h1, h2, h3, h4, h5, h6, h7, h8, h9, h10, h11, h12, h13, -⟩ := hnil
  rcases hpos with h | h | h | h | h | h | h | h | h | h | h | h | h
  · simp [ionOfMapping, tblGet, EC_ION_MOLAR_MASSES, h] at h1
  · simp [ionOfMapping, tblGet, EC_ION_MOLAR_MASSES, h] at h2
  · simp [ionOfMapping, tblGet, EC_ION_MOLAR_MASSES, h] at h3
  · simp [ionOfMapping, tblGet, EC_ION_MOLAR_MASSES, h] at h4
  · simp [ionOfMapping, tblGet, EC_ION_MOLAR_MASSES, h] at h5
  · simp [ionOfMapping, tblGet, EC_ION_MOLAR_MASSES, h] at h6
  · simp [ionOfMapping, tblGet, EC_ION_MOLAR_MASSES, h] at h7
  · simp [ionOfMapping, tblGet, EC_ION_MOLAR_MASSES, h] at h8
  · simp [ionOfMapping, tblGet, EC_ION_MOLAR_MASSES, h] at h9
  · simp [ionOfMapping, tblGet, EC_ION_MOLAR_MASSES, h] at h10
  · simp [ionOfMapping, tblGet, EC_ION_MOLAR_MASSES, h] at h11
  · simp [ionOfMapping, tblGet, EC_ION_MOLAR_MASSES, h] at h12
  · simp [ionOfMapping, tblGet, EC_ION_MOLAR_MASSES, h] at h13

/-- The corrected-EC formula of `estimateEC` under default options with
positive ionic strength. -/
theorem ec_formula {p : PpmProfile}
    (hI : 0 < ionicStrengthOf (ppmToIonsForEC p)) :
    (estimateECFromPPM p {}).ec_mS_cm
      = ((rawECOf (ppmToIonsForEC p) : ℚ) : ℝ) /
        (1 + 1 / 2 * Real.sqrt ((ionicStrengthOf (ppmToIonsForEC p) : ℚ) : ℝ)) := by
  simp only [estimateECFromPPM, estimateEC] at hI ⊢
  rw [if_pos ⟨trivial, hI⟩]
  norm_num

/-- C6 (amended): for every ppm profile with at least one positive
recognized ion, doubling every ppm value strictly increases the estimated
EC under default options, and the new EC is at most 2.5× the original.
The claimed 1.5× lower bound does not hold universally (the
ionic-strength correction drives the ratio toward √2 ≈ 1.414 as the
ionic strength grows); it does hold whenever the profile's ionic strength
is at most 67 mol/L, far beyond any physical nutrient solution. -/
theorem ec_doubling_bounds (p : PpmProfile)
    (hpos : 0 < p.N_NO3 ∨ 0 < p.N_NH4 ∨ 0 < p.P ∨ 0 < p.K ∨ 0 < p.Ca ∨
      0 < p.Mg ∨ 0 < p.S ∨ 0 < p.Na ∨ 0 < p.Cl ∨ 0 < p.Fe ∨ 0 < p.Mn ∨
      0 < p.Zn ∨ 0 < p.Cu) :
    (estimateECFromPPM p {}).ec_mS_cm
        < (estimateECFromPPM (smulP 2 p) {}).ec_mS_cm ∧
      (ionicStrengthOf (ppmToIonsForEC p) ≤ 67 →
        3 / 2 * (estimateECFromPPM p {}).ec_mS_cm
          ≤ (estimateECFromPPM (smulP 2 p) {}).ec_mS_cm) ∧
      (estimateECFromPPM (smulP 2 p) {}).ec_mS_cm
        ≤ 5 / 2 * (estimateECFromPPM p {}).ec_mS_cm := by
  have hne := ions_ne_nil_of_pos hpos
  obtain ⟨hraw, hI⟩ := ec_pos_of_ions hne
  have hions2 := ppmToIons_smul 2 (by norm_num) p
  have hraw2 : rawECOf (ppmToIonsForEC (smulP 2 p))
      = 2 * rawECOf (ppmToIonsForEC p) := by
    rw [hions2, rawECOf_smul 2 (by norm_num)]
  have hI2 : ionicStrengthOf (ppmToIonsForEC (smulP 2 p))
      = 2 * ionicStrengthOf (ppmToIonsForEC p) := by
    rw [hions2, ionicStrengthOf_smul 2 (by norm_num)]
  have hI2pos : 0 < ionicStrengthOf (ppmToIonsForEC (smulP 2 p)) := by
    rw [hI2]; linarith
  have e1 := ec_formula (p := p) hI
  have e2 := ec_formula (p := smulP 2 p) hI2pos
  have hcast : ((2 * ionicStrengthOf (ppmToIonsForEC p) : ℚ) : ℝ)
      = 2 * ((ionicStrengthOf (ppmToIonsForEC p) : ℚ) : ℝ) := by push_cast; ring
  have hcastR : ((2 * rawECOf (ppmToIonsForEC p) : ℚ) : ℝ)
      = 2 * ((rawECOf (ppmToIonsForEC p) : ℚ) : ℝ) := by push_cast; ring
  rw [e1, e2, hraw2, hI2, hcast, hcastR, Real.sqrt_mul (by norm_num : (0:ℝ) ≤ 2)]
  set R : ℝ := ((rawECOf (ppmToIonsForEC p) : ℚ) : ℝ) with hR_def
  set u : ℝ := Real.sqrt ((ionicStrengthOf (ppmToIonsForEC p) : ℚ) : ℝ) with hu_def
  set a : ℝ := Real.sqrt 2 with ha_def
  have hR : 0 < R := by rw [hR_def]; exact_mod_cast hraw
  have hu : 0 ≤ u := Real.sqrt_nonneg _
  have hIcast : (0:ℝ) < ((ionicStrengthOf (ppmToIonsForEC p) : ℚ) : ℝ) := by
    exact_mod_cast hI
  have hu2 : u ^ 2 = ((ionicStrengthOf (ppmToIonsForEC p) : ℚ) : ℝ) :=
    Real.sq_sqrt hIcast.le
  have ha_lo : (1.4 : ℝ) < a := by
    rw [ha_def]
    rw [show (1.4:ℝ) = Real.sqrt (1.4 ^ 2) from
      (Real.sqrt_sq (by norm_num)).symm]
    exact Real.sqrt_lt_sqrt (by norm_num) (by norm_num)
  have ha_hi : a < 1.41422 := by
    rw [ha_def]
    rw [show (1.41422:ℝ) = Real.sqrt (1.41422 ^ 2) from
      (Real.sqrt_sq (by norm_num)).symm]
    exact Real.sqrt_lt_sqrt (by norm_num) (by norm_num)
  have hd1 : (0:ℝ) < 1 + 1 / 2 * u := by linarith
  have hd2 : (0:ℝ) < 1 + 1 / 2 * (a * u) := by
    have : 0 ≤ a * u := mul_nonneg (by linarith) hu
    linarith
  refine ⟨?_, ?_, ?_⟩
  · rw [div_lt_div_iff hd1 hd2]
    have key : 0 ≤ R * u * (2 - a) :=
      mul_nonneg (mul_nonneg hR.le hu) (by linarith)
    nlinarith [key]
  · intro hI67
    have hIle : ((ionicStrengthOf (ppmToIonsForEC p) : ℚ) : ℝ) ≤ 67 := by
      exact_mod_cast hI67
    have hu_le : u ≤ 8.19 := by nlinarith [sq_nonneg (u - 8.19)]
    rw [show (3:ℝ) / 2 * (R / (1 + 1 / 2 * u)) = 3 / 2 * R / (1 + 1 / 2 * u) by
      ring, div_le_div_iff hd1 hd2]
    have hbound : u * (3 / 4 * a - 1) ≤ 1 / 2 := by
      have h1 : 3 / 4 * a - 1 ≤ (0.0607 : ℝ) := by linarith
      have h2 : (0:ℝ) ≤ 3 / 4 * a - 1 := by linarith
      calc u * (3 / 4 * a - 1) ≤ 8.19 * 0.0607 :=
            mul_le_mul hu_le h1 h2 (by norm_num)
        _ ≤ 1 / 2 := by norm_num
    nlinarith [mul_le_mul_of_nonneg_left hbound hR.le]
  · rw [show (5:ℝ) / 2 * (R / (1 + 1 / 2 * u)) = 5 / 2 * R / (1 + 1 / 2 * u) by
      ring, div_le_div_iff hd2 hd1]
    have key : 0 ≤ R * u * (a - 1.4) :=
      mul_nonneg (mul_nonneg hR.le hu) (by linarith)
    nlinarith [key, mul_nonneg hR.le hu]

/-- The concrete ion map of a potassium-only profile with an integer ppm
value. -/
theorem ions_of_K_profile (c : ℚ) (hc : 0 < c) :
    ppmToIonsForEC { K := c } = [("K+", c / 39.098)] := by
  have mK : ionOfMapping { K := c } (fun p => p.K, "K+")
      = some ("K+", c / 39.098) := by
    simp only [ionOfMapping,
      show tblGet EC_ION_MOLAR_MASSES "K+" = some 39.098 from rfl]
    rw [if_pos hc]
  rw [ppmToIonsForEC, PPM_TO_ION_MAPPINGS]
  rw [List.filterMap_cons_none rfl, List.filterMap_cons_none rfl,
    List.filterMap_cons_none rfl, List.filterMap_cons_some mK,
    List.filterMap_cons_none rfl, List.filterMap_cons_none rfl,
    List.filterMap_cons_none rfl, List.filterMap_cons_none rfl,
    List.filterMap_cons_none rfl, List.filterMap_cons_none rfl,
    List.filterMap_cons_none rfl, List.filterMap_cons_none rfl,
    List.filterMap_cons_none rfl]
  rfl

theorem rawECOf_K (c : ℚ) (hc : 0 < c) :
    rawECOf [("K+", c)] = 0.001 * 73.5 * c := by
  rw [rawECOf_cons]
  have h1 : condContrib ("K+", c) = 0.001 * 73.5 * c := by
    simp only [condContrib,
      show tblGet IONIC_MOLAR_CONDUCTIVITY "K+" = some 73.5 from rfl]
    rw [if_pos hc]
  have h0 : rawECOf ([] : List (String × ℚ)) = 0 := by simp [rawECOf]
  rw [h1, h0, add_zero]

theorem ionicStrengthOf_K (c : ℚ) (hc : 0 < c) :
    ionicStrengthOf [("K+", c)] = c / 2000 := by
  rw [ionicStrengthOf_cons]
  have h1 : strengthContrib ("K+", c) = c / 1000 * 1 * 1 := by
    simp only [strengthContrib,
      show tblGet ION_CHARGES "K+" = some 1 from rfl]
    rw [if_pos hc]
  have h0 : ionicStrengthOf ([] : List (String × ℚ)) = 0 := by
    simp [ionicStrengthOf]
  rw [h1, h0, add_zero]
  ring

/-- Witness for C6 (amended): a profile with 39 098 ppm potassium
(1 mol/L of K⁺). -/
theorem ec_doubling_bounds_witness :
    (estimateECFromPPM { K := 39098 } {}).ec_mS_cm
        < (estimateECFromPPM (smulP 2 { K := 39098 }) {}).ec_mS_cm ∧
      3 / 2 * (estimateECFromPPM { K := 39098 } {}).ec_mS_cm
        ≤ (estimateECFromPPM (smulP 2 { K := 39098 }) {}).ec_mS_cm ∧
      (estimateECFromPPM (smulP 2 { K := 39098 }) {}).ec_mS_cm
        ≤ 5 / 2 * (estimateECFromPPM { K := 39098 } {}).ec_mS_cm :=
 by
  have h := ec_doubling_bounds { K := 39098 } (by norm_num)
  refine ⟨h.1, h.2.1 ?_, h.2.2⟩
  rw [ions_of_K_profile 39098 (by norm_num), ionicStrengthOf_K _ (by norm_num)]
  norm_num

/-- C6 (counterexample): at an extreme but positive profile
(7 819 600 ppm K, i.e. 200 mol/L of K⁺ and ionic strength 100), doubling
the profile multiplies the estimated EC by `12/(1+5√2) ≈ 1.487 < 1.5`:
the claimed universal 1.5× lower bound is false. -/
theorem ec_doubling_lower_bound_fails :
    0 < ({ K := 7819600 } : PpmProfile).K ∧
      (estimateECFromPPM (smulP 2 { K := 7819600 }) {}).ec_mS_cm
        < 3 / 2 * (estimateECFromPPM { K := 7819600 } {}).ec_mS_cm := by
  constructor
  · norm_num
  · have hions1 : ppmToIonsForEC { K := 7819600 } = [("K+", 200000)] := by
      rw [ions_of_K_profile 7819600 (by norm_num)]
      norm_num
    have hsm : smulP 2 ({ K := 7819600 } : PpmProfile)
        = { K := 15639200 } := by
      norm_num [smulP]
    have hions2 : ppmToIonsForEC { K := 15639200 } = [("K+", 400000)] := by
      rw [ions_of_K_profile 15639200 (by norm_num)]
      norm_num
    have hraw1 : rawECOf [("K+", 200000)] = 14700 := by
      rw [rawECOf_K 200000 (by norm_num)]
      norm_num
    have hraw2 : rawECOf [("K+", 400000)] = 29400 := by
      rw [rawECOf_K 400000 (by norm_num)]
      norm_num
    have hI1 : ionicStrengthOf [("K+", 200000)] = 100 := by
      rw [ionicStrengthOf_K 200000 (by norm_num)]
      norm_num
    have hI2 : ionicStrengthOf [("K+", 400000)] = 200 := by
      rw [ionicStrengthOf_K 400000 (by norm_num)]
      norm_num
    have e1 : (estimateECFromPPM { K := 7819600 } {}).ec_mS_cm
        = (14700 : ℝ) / (1 + 1 / 2 * Real.sqrt 100) := by
      have := ec_formula (p := { K := 7819600 })
        (by rw [hions1, hI1]; norm_num)
      rw [this, hions1, hraw1, hI1]
      norm_num
    have e2 : (estimateECFromPPM (smulP 2 { K := 7819600 }) {}).ec_mS_cm
        = (29400 : ℝ) / (1 + 1 / 2 * Real.sqrt 200) := by
      have := ec_formula (p := smulP 2 { K := 7819600 })
        (by rw [hsm, hions2, hI2]; norm_num)
      rw [this, hsm, hions2, hraw2, hI2]
      norm_num
    rw [e1, e2]
    have h100 : Real.sqrt 100 = 10 := by
      rw [show (100:ℝ) = 10 ^ 2 by norm_num]
      exact Real.sqrt_sq (by norm_num)
    have h200 : (14:ℝ) < Real.sqrt 200 := by
      rw [show (14:ℝ) = Real.sqrt (14 ^ 2) from (Real.sqrt_sq (by norm_num)).symm]
      exact Real.sqrt_lt_sqrt (by norm_num) (by norm_num)
    rw [h100]
    have hd : (8:ℝ) < 1 + 1 / 2 * Real.sqrt 200 := by linarith
    have : (29400:ℝ) / (1 + 1 / 2 * Real.sqrt 200) < 29400 / 8 :=
      div_lt_div_of_pos_left (by norm_num) (by norm_num) hd
    calc (29400:ℝ) / (1 + 1 / 2 * Real.sqrt 200)
        < 29400 / 8 := this
      _ ≤ 3 / 2 * (14700 / (1 + 1 / 2 * 10)) := by norm_num

/-- C3: past the input guards, `calculateStockSolutions` tries tank counts
K = 2, 3, 4 in ascending order and returns the first successful attempt:
if the 2-tank attempt succeeds the returned plan IS the 2-tank attempt's
plan (never an escalated one), and in general the returned record is the
attempt of the least successful K (or the K = 4 attempt when none
succeeds). -/
theorem progressiveK_first_success {α : Type} (success : α → Bool)
    (targets : List Target) (avail : List String) (catalog : List Fertilizer)
    (tryK : ℕ → α)
    (h1 : targets.isEmpty = false) (h2 : avail.isEmpty = false)
    (h3 : (avail.filterMap (findFert catalog)).isEmpty = false) :
    (success (tryK 2) = true →
        calculateStockSolutions success targets avail catalog tryK
          = .result (tryK 2)) ∧
      (∀ r, calculateStockSolutions success targets avail catalog tryK
          = .result r →
        (r = tryK 2 ∧ success (tryK 2) = true) ∨
          (r = tryK 3 ∧ success (tryK 2) = false ∧ success (tryK 3) = true) ∨
          (r = tryK 4 ∧ success (tryK 2) = false ∧
            success (tryK 3) = false)) := by
  constructor
  · intro hs
    simp [calculateStockSolutions, h1, h2, h3, hs]
  · intro r hr
    by_cases s2 : success (tryK 2) = true
    · simp [calculateStockSolutions, h1, h2, h3, s2] at hr
      exact Or.inl ⟨hr.symm, s2⟩
    · rw [Bool.not_eq_true] at s2
      by_cases s3 : success (tryK 3) = true
      · simp [calculateStockSolutions, h1, h2, h3, s2, s3] at hr
        exact Or.inr (Or.inl ⟨hr.symm, s2, s3⟩)
      · rw [Bool.not_eq_true] at s3
        simp [calculateStockSolutions, h1, h2, h3, s2, s3] at hr
        exact Or.inr (Or.inr ⟨hr.symm, s2, s3⟩)

/-- Witness for C3: one target, potassium nitrate available, an attempt
that succeeds at every K — the returned plan is the K = 2 attempt. -/
theorem progressiveK_first_success_witness :
    calculateStockSolutions (fun b => b)
        [{ id := "veg", targetEC := 1.6 }]
        ["potassium_nitrate_typical"] FERTILIZERS (fun _ => true)
      = StockOutcome.result true :=
  (progressiveK_first_success (fun b => b)
    [{ id := "veg", targetEC := 1.6 }]
    ["potassium_nitrate_typical"] FERTILIZERS (fun _ => true)
    rfl rfl rfl).1 rfl

theorem rawECOfR_cons (q : String × ℝ) (rest : List (String × ℝ)) :
    rawECOfR (q :: rest) = condContribR q + rawECOfR rest := by
  simp [rawECOfR]

theorem ionicStrengthOfR_cons (q : String × ℝ) (rest : List (String × ℝ)) :
    ionicStrengthOfR (q :: rest)
      = strengthContribR q / 2 + ionicStrengthOfR rest := by
  simp only [ionicStrengthOfR, List.map_cons, List.sum_cons]
  ring

theorem condContribR_smul (s : ℝ) (hs : 0 < s) (q : String × ℝ) :
    condContribR (q.1, q.2 * s) = condContribR q * s := by
  rcases htbl : tblGet IONIC_MOLAR_CONDUCTIVITY q.1 with _ | lam
  · simp [condContribR, htbl]
  · by_cases hc : 0 < q.2
    · have hc2 : 0 < q.2 * s := mul_pos hc hs
      simp only [condContribR, htbl, if_pos hc, if_pos hc2]
      ring
    · have hc2 : ¬ 0 < q.2 * s :=
        not_lt.mpr (mul_nonpos_of_nonpos_of_nonneg (not_lt.mp hc) hs.le)
      simp [condContribR, htbl, if_neg hc, if_neg hc2]

theorem strengthContribR_smul (s : ℝ) (hs : 0 < s) (q : String × ℝ) :
    strengthContribR (q.1, q.2 * s) = strengthContribR q * s := by
  rcases htbl : tblGet ION_CHARGES q.1 with _ | z
  · simp [strengthContribR, htbl]
  · by_cases hc : 0 < q.2
    · have hc2 : 0 < q.2 * s := mul_pos hc hs
      simp only [strengthContribR, htbl, if_pos hc, if_pos hc2]
      ring
    · have hc2 : ¬ 0 < q.2 * s :=
        not_lt.mpr (mul_nonpos_of_nonpos_of_nonneg (not_lt.mp hc) hs.le)
      simp [strengthContribR, htbl, if_neg hc, if_neg hc2]

theorem rawECOfR_smul (s : ℝ) (hs : 0 < s) (l : List (String × ℝ)) :
    rawECOfR (l.map fun q => (q.1, q.2 * s)) = rawECOfR l * s := by
  induction l with
  | nil => simp [rawECOfR]
  | cons q rest ih =>
    simp only [List.map_cons, rawECOfR_cons, ih, condContribR_smul s hs q]
    ring

theorem ionicStrengthOfR_smul (s : ℝ) (hs : 0 < s) (l : List (String × ℝ)) :
    ionicStrengthOfR (l.map fun q => (q.1, q.2 * s))
      = ionicStrengthOfR l * s := by
  induction l with
  | nil => simp [ionicStrengthOfR]
  | cons q rest ih =>
    simp only [List.map_cons, ionicStrengthOfR_cons, ih,
      strengthContribR_smul s hs q]
    ring

theorem toProfileR_smul (s : ℝ) (a : AchievedR) :
    toProfileR (smulAR s a) = smulPR (toProfileR a) s := by
  simp [toProfileR, smulAR, smulPR]

theorem ppmToIonsR_smul (s : ℝ) (hs : 0 < s) (p : PpmProfileR) :
    ppmToIonsForECR (smulPR p s)
      = (ppmToIonsForECR p).map fun q => (q.1, q.2 * s) := by
  have hgen : ∀ (ms : List ((PpmProfileR → ℝ) × String)),
      (∀ m ∈ ms, m.1 (smulPR p s) = m.1 p * s) →
      ms.filterMap (ionOfMappingR (smulPR p s))
        = (ms.filterMap (ionOfMappingR p)).map fun q => (q.1, q.2 * s) := by
    intro ms
    induction ms with
    | nil => simp
    | cons m rest ih =>
      intro hlin
      have hm := hlin m (List.mem_cons_self _ _)
      have hrest := fun r hr => hlin r (List.mem_cons_of_mem _ hr)
      rcases htbl : tblGet EC_ION_MOLAR_MASSES m.2 with _ | mm
      · have e1 : ionOfMappingR (smulPR p s) m = none := by
          simp [ionOfMappingR, htbl]
        have e2 : ionOfMappingR p m = none := by
          simp [ionOfMappingR, htbl]
        rw [List.filterMap_cons_none e1, List.filterMap_cons_none e2, ih hrest]
      · by_cases hc : 0 < m.1 p
        · have hc2' : 0 < m.1 p * s := mul_pos hc hs
          have e1 : ionOfMappingR (smulPR p s) m
              = some (m.2, m.1 p * s / (mm : ℝ)) := by
            simp only [ionOfMappingR, htbl, hm, if_pos hc2']
          have e2 : ionOfMappingR p m = some (m.2, m.1 p / (mm : ℝ)) := by
            simp only [ionOfMappingR, htbl, if_pos hc]
          rw [List.filterMap_cons_some e1, List.filterMap_cons_some e2,
            List.map_cons, ih hrest]
          congr 2
          ring
        · have hc2 : ¬ 0 < m.1 p * s := by
            rw [hm] at *
            exact not_lt.mpr
              (mul_nonpos_of_nonpos_of_nonneg (not_lt.mp hc) hs.le)
          have e1 : ionOfMappingR (smulPR p s) m = none := by
            simp only [ionOfMappingR, htbl, hm, if_neg hc2]
          have e2 : ionOfMappingR p m = none := by
            simp only [ionOfMappingR, htbl, if_neg hc]
          rw [List.filterMap_cons_none e1, List.filterMap_cons_none e2, ih hrest]
  apply hgen
  intro m hm
  fin_cases hm <;> simp [smulPR]

/-- `estimateECR` under default options with positive ionic strength. -/
theorem estimateECR_formula (ions : List (String × ℝ))
    (hI : 0 < ionicStrengthOfR ions) :
    estimateECR ions {}
      = rawECOfR ions / (1 + 1 / 2 * Real.sqrt (ionicStrengthOfR ions)) := by
  simp only [estimateECR] at hI ⊢
  rw [if_pos ⟨trivial, hI⟩]
  norm_num

/-- The EC of a uniformly scaled achieved profile, in closed form. -/
theorem ecOfAchievedR_smul (a : AchievedR) (s : ℝ) (hs : 0 < s)
    (hI : 0 < ionicStrengthOfR (ppmToIonsForECR (toProfileR a))) :
    ecOfAchievedR (smulAR s a)
      = rawECOfR (ppmToIonsForECR (toProfileR a)) * s /
        (1 + 1 / 2 *
          Real.sqrt (ionicStrengthOfR (ppmToIonsForECR (toProfileR a)) * s)) := by
  have hions : ppmToIonsForECR (toProfileR (smulAR s a))
      = (ppmToIonsForECR (toProfileR a)).map fun q => (q.1, q.2 * s) := by
    rw [toProfileR_smul, ppmToIonsR_smul s hs]
  have hI2 : 0 < ionicStrengthOfR (ppmToIonsForECR (toProfileR (smulAR s a))) := by
    rw [hions, ionicStrengthOfR_smul s hs]
    exact mul_pos hI hs
  unfold ecOfAchievedR
  rw [estimateECR_formula _ hI2, hions, rawECOfR_smul s hs,
    ionicStrengthOfR_smul s hs]

/-- Positivity and the `g s ≤ s · raw` bound for the scaled-profile EC. -/
theorem ecOfAchievedR_smul_bounds (a : AchievedR) (s : ℝ) (hs : 0 < s)
    (hraw : 0 < rawECOfR (ppmToIonsForECR (toProfileR a)))
    (hI : 0 < ionicStrengthOfR (ppmToIonsForECR (toProfileR a))) :
    0 < ecOfAchievedR (smulAR s a) ∧
      ecOfAchievedR (smulAR s a)
        ≤ s * rawECOfR (ppmToIonsForECR (toProfileR a)) := by
  rw [ecOfAchievedR_smul a s hs hI]
  have hsqrt : 0 ≤ Real.sqrt
      (ionicStrengthOfR (ppmToIonsForECR (toProfileR a)) * s) :=
    Real.sqrt_nonneg _
  have hd : (0:ℝ) < 1 + 1 / 2 *
      Real.sqrt (ionicStrengthOfR (ppmToIonsForECR (toProfileR a)) * s) := by
    linarith
  constructor
  · exact div_pos (mul_pos hraw hs) hd
  · rw [mul_comm s]
    calc rawECOfR (ppmToIonsForECR (toProfileR a)) * s /
        (1 + 1 / 2 *
          Real.sqrt (ionicStrengthOfR (ppmToIonsForECR (toProfileR a)) * s))
        ≤ rawECOfR (ppmToIonsForECR (toProfileR a)) * s / 1 := by
          apply div_le_div_of_nonneg_left (mul_pos hraw hs).le (by norm_num)
          linarith
      _ = rawECOfR (ppmToIonsForECR (toProfileR a)) * s := by norm_num

/-- Every scale factor the EC loop can return is at least `t / raw`,
provided the EC of the `s`-scaled profile never exceeds `s · raw` and the
entry factor is at least `t / raw`. -/
theorem ecScaleLoop_lower_bound (g : ℝ → ℝ) (t raw : ℝ)
    (hraw : 0 < raw) (ht : 0 < t)
    (hgpos : ∀ s, 0 < s → 0 < g s)
    (hgle : ∀ s, 0 < s → g s ≤ s * raw) :
    ∀ fuel s, 0 < s → t / raw ≤ s → t / raw ≤ ecScaleLoop g t fuel s := by
  intro fuel
  induction fuel with
  | zero =>
    intro s hs hB
    simpa [ecScaleLoop] using hB
  | succ n ih =>
    intro s hs hB
    match n with
    | 0 => simpa [ecScaleLoop] using hB
    | m + 1 =>
      show t / raw ≤ ecScaleLoop g t (m + 2) s
      rw [ecScaleLoop]
      split_ifs with hconv
      · exact hB
      · have hg := hgpos s hs
        have hge := hgle s hs
        have hs' : 0 < s * (t / g s) := mul_pos hs (div_pos ht hg)
        have hstep : t / raw ≤ s * (t / g s) := by
          have h1 : t / (s * raw) ≤ t / g s :=
            div_le_div_of_nonneg_left ht.le hg hge
          calc t / raw = s * (t / (s * raw)) := by
                field_simp
                ring
              _ ≤ s * (t / g s) := by
                exact mul_le_mul_of_nonneg_left h1 hs.le
        exact ih (s * (t / g s)) hs' hstep

/-- The engine-side interpretation of a unit-primal solve over the
potassium-nitrate candidate set (any targets): dose 1 g, achieved
N 137 ppm / K₂O 463 ppm. -/
theorem kno3_solve (targets : Targets7) :
    solveMilpBrowser true (fun _ _ => 1) [kno3Fert] targets 1
      = .ok { formula := [("potassium_nitrate_typical", 1)]
              achieved := kno3Achieved } := by
  have h01 : (1e-4 : ℝ) < 1 := by norm_num
  have hid : kno3Fert.id = "potassium_nitrate_typical" := rfl
  have hach : achievedFromFormulaR [kno3Fert] 1
      [("potassium_nitrate_typical", 1)] = kno3Achieved := by
    norm_num [achievedFromFormulaR, findFert, kno3Fert, fertContribAR,
      AchievedR.add, kno3Achieved, P_to_P2O5, K_to_K2O, OXIDE_CONVERSIONS]
  simp only [solveMilpBrowser, solveMilpCore, Bool.not_true,
    Bool.false_eq_true, if_false, List.filterMap_cons, List.filterMap_nil,
    h01, if_true, ite_true, hid, hach]

/-- The ion map of the potassium-nitrate achieved profile. -/
theorem kno3_ions :
    ppmToIonsForECR (toProfileR kno3Achieved)
      = [("NO3-", 137 / (14.007:ℝ)), ("K+", 463 * 0.83013 / (39.098:ℝ))] := by
  have m01 : ionOfMappingR (toProfileR kno3Achieved) (fun p => p.N_NO3, "NO3-")
      = some ("NO3-", 137 / (14.007:ℝ)) := by
    have hp : (0:ℝ) < (toProfileR kno3Achieved).N_NO3 := by
      norm_num [toProfileR, kno3Achieved]
    simp only [ionOfMappingR,
      show tblGet EC_ION_MOLAR_MASSES "NO3-" = some 14.007 from rfl,
      if_pos hp]
    norm_num [toProfileR, kno3Achieved]
  have m04 : ionOfMappingR (toProfileR kno3Achieved) (fun p => p.K, "K+")
      = some ("K+", 463 * 0.83013 / (39.098:ℝ)) := by
    have hp : (0:ℝ) < (toProfileR kno3Achieved).K := by
      norm_num [toProfileR, kno3Achieved]
    simp only [ionOfMappingR,
      show tblGet EC_ION_MOLAR_MASSES "K+" = some 39.098 from rfl,
      if_pos hp]
    norm_num [toProfileR, kno3Achieved]
  have m02 : ionOfMappingR (toProfileR kno3Achieved) (fun p => p.N_NH4, "NH4+")
      = none := by
    have hz : ¬ (0:ℝ) < (toProfileR kno3Achieved).N_NH4 := by
      norm_num [toProfileR, kno3Achieved]
    simp only [ionOfMappingR,
      show tblGet EC_ION_MOLAR_MASSES "NH4+" = some 14.007 from rfl,
      if_neg hz]
  have m03 : ionOfMappingR (toProfileR kno3Achieved) (fun p => p.P, "H2PO4-")
      = none := by
    have hz : ¬ (0:ℝ) < (toProfileR kno3Achieved).P := by
      norm_num [toProfileR, kno3Achieved]
    simp only [ionOfMappingR,
      show tblGet EC_ION_MOLAR_MASSES "H2PO4-" = some 30.974 from rfl,
      if_neg hz]
  have m05 : ionOfMappingR (toProfileR kno3Achieved) (fun p => p.Ca, "Ca2+")
      = none := by
    have hz : ¬ (0:ℝ) < (toProfileR kno3Achieved).Ca := by
      norm_num [toProfileR, kno3Achieved]
    simp only [ionOfMappingR,
      show tblGet EC_ION_MOLAR_MASSES "Ca2+" = some 40.078 from rfl,
      if_neg hz]
  have m06 : ionOfMappingR (toProfileR kno3Achieved) (fun p => p.Mg, "Mg2+")
      = none := by
    have hz : ¬ (0:ℝ) < (toProfileR kno3Achieved).Mg := by
      norm_num [toProfileR, kno3Achieved]
    simp only [ionOfMappingR,
      show tblGet EC_ION_MOLAR_MASSES "Mg2+" = some 24.305 from rfl,
      if_neg hz]
  have m07 : ionOfMappingR (toProfileR kno3Achieved) (fun p => p.S, "SO4^2-")
      = none := by
    have hz : ¬ (0:ℝ) < (toProfileR kno3Achieved).S := by
      norm_num [toProfileR, kno3Achieved]
    simp only [ionOfMappingR,
      show tblGet EC_ION_MOLAR_MASSES "SO4^2-" = some 32.065 from rfl,
      if_neg hz]
  have m08 : ionOfMappingR (toProfileR kno3Achieved) (fun p => p.Na, "Na+")
      = none := by
    have hz : ¬ (0:ℝ) < (toProfileR kno3Achieved).Na := by
      norm_num [toProfileR, kno3Achieved]
    simp only [ionOfMappingR,
      show tblGet EC_ION_MOLAR_MASSES "Na+" = some 22.99 from rfl,
      if_neg hz]
  have m09 : ionOfMappingR (toProfileR kno3Achieved) (fun p => p.Cl, "Cl-")
      = none := by
    have hz : ¬ (0:ℝ) < (toProfileR kno3Achieved).Cl := by
      norm_num [toProfileR, kno3Achieved]
    simp only [ionOfMappingR,
      show tblGet EC_ION_MOLAR_MASSES "Cl-" = some 35.453 from rfl,
      if_neg hz]
  have m10 : ionOfMappingR (toProfileR kno3Achieved) (fun p => p.Fe, "Fe2+")
      = none := by
    have hz : ¬ (0:ℝ) < (toProfileR kno3Achieved).Fe := by
      norm_num [toProfileR, kno3Achieved]
    simp only [ionOfMappingR,
      show tblGet EC_ION_MOLAR_MASSES "Fe2+" = some 55.845 from rfl,
      if_neg hz]
  have m11 : ionOfMappingR (toProfileR kno3Achieved) (fun p => p.Mn, "Mn2+")
      = none := by
    have hz : ¬ (0:ℝ) < (toProfileR kno3Achieved).Mn := by
      norm_num [toProfileR, kno3Achieved]
    simp only [ionOfMappingR,
      show tblGet EC_ION_MOLAR_MASSES "Mn2+" = some 54.938 from rfl,
      if_neg hz]
  have m12 : ionOfMappingR (toProfileR kno3Achieved) (fun p => p.Zn, "Zn2+")
      = none := by
    have hz : ¬ (0:ℝ) < (toProfileR kno3Achieved).Zn := by
      norm_num [toProfileR, kno3Achieved]
    simp only [ionOfMappingR,
      show tblGet EC_ION_MOLAR_MASSES "Zn2+" = some 65.38 from rfl,
      if_neg hz]
  have m13 : ionOfMappingR (toProfileR kno3Achieved) (fun p => p.Cu, "Cu2+")
      = none := by
    have hz : ¬ (0:ℝ) < (toProfileR kno3Achieved).Cu := by
      norm_num [toProfileR, kno3Achieved]
    simp only [ionOfMappingR,
      show tblGet EC_ION_MOLAR_MASSES "Cu2+" = some 63.546 from rfl,
      if_neg hz]
  rw [ppmToIonsForECR, PPM_TO_ION_MAPPINGS_R,
    List.filterMap_cons_some m01, List.filterMap_cons_none m02,
    List.filterMap_cons_none m03, List.filterMap_cons_some m04,
    List.filterMap_cons_none m05, List.filterMap_cons_none m06,
    List.filterMap_cons_none m07, List.filterMap_cons_none m08,
    List.filterMap_cons_none m09, List.filterMap_cons_none m10,
    List.filterMap_cons_none m11, List.filterMap_cons_none m12,
    List.filterMap_cons_none m13]
  rfl

/-- Numeric bounds on the raw EC and ionic strength of the
potassium-nitrate profile. -/
theorem kno3_ec_bounds :
    (0 < rawECOfR (ppmToIonsForECR (toProfileR kno3Achieved)) ∧
        rawECOfR (ppmToIonsForECR (toProfileR kno3Achieved)) ≤ 15) ∧
      0 < ionicStrengthOfR (ppmToIonsForECR (toProfileR kno3Achieved)) := by
  have hp1 : (0:ℝ) < 137 / 14.007 := by norm_num
  have hp2 : (0:ℝ) < 463 * 0.83013 / 39.098 := by norm_num
  have c1 : condContribR ("NO3-", 137 / (14.007:ℝ))
      = 0.001 * ((71.5 : ℚ) : ℝ) * (137 / 14.007) := by
    simp only [condContribR,
      show tblGet IONIC_MOLAR_CONDUCTIVITY "NO3-" = some 71.5 from rfl,
      if_pos hp1]
  have c2 : condContribR ("K+", 463 * 0.83013 / (39.098:ℝ))
      = 0.001 * ((73.5 : ℚ) : ℝ) * (463 * 0.83013 / 39.098) := by
    simp only [condContribR,
      show tblGet IONIC_MOLAR_CONDUCTIVITY "K+" = some 73.5 from rfl,
      if_pos hp2]
  have s1 : strengthContribR ("NO3-", 137 / (14.007:ℝ))
      = 137 / 14.007 / 1000 * ((1 : ℚ) : ℝ) * ((1 : ℚ) : ℝ) := by
    simp only [strengthContribR,
      show tblGet ION_CHARGES "NO3-" = some 1 from rfl, if_pos hp1]
  have s2 : strengthContribR ("K+", 463 * 0.83013 / (39.098:ℝ))
      = 463 * 0.83013 / 39.098 / 1000 * ((1 : ℚ) : ℝ) * ((1 : ℚ) : ℝ) := by
    simp only [strengthContribR,
      show tblGet ION_CHARGES "K+" = some 1 from rfl, if_pos hp2]
  have hraw : rawECOfR (ppmToIonsForECR (toProfileR kno3Achieved))
      = 0.001 * ((71.5 : ℚ) : ℝ) * (137 / 14.007) +
        (0.001 * ((73.5 : ℚ) : ℝ) * (463 * 0.83013 / 39.098) + 0) := by
    rw [kno3_ions, rawECOfR_cons, rawECOfR_cons, c1, c2]
    norm_num [rawECOfR]
  have hstr : ionicStrengthOfR (ppmToIonsForECR (toProfileR kno3Achieved))
      = 137 / 14.007 / 1000 * ((1 : ℚ) : ℝ) * ((1 : ℚ) : ℝ) / 2 +
        (463 * 0.83013 / 39.098 / 1000 * ((1 : ℚ) : ℝ) * ((1 : ℚ) : ℝ) / 2
          + 0) := by
    rw [kno3_ions, ionicStrengthOfR_cons, ionicStrengthOfR_cons, s1, s2]
    norm_num [ionicStrengthOfR]
  rw [hraw, hstr]
  norm_num

/-- The base EC of the potassium-nitrate profile is positive and at most
its raw EC (the ionic-strength divisor is at least 1). -/
theorem kno3_ec1_bounds :
    0 < ecOfAchievedR kno3Achieved ∧
      ecOfAchievedR kno3Achieved
        ≤ rawECOfR (ppmToIonsForECR (toProfileR kno3Achieved)) := by
  obtain ⟨⟨hR0, _⟩, hI0⟩ := kno3_ec_bounds
  have hsq : 0 ≤ Real.sqrt
      (ionicStrengthOfR (ppmToIonsForECR (toProfileR kno3Achieved))) :=
    Real.sqrt_nonneg _
  have hden : (0:ℝ) < 1 + 1 / 2 * Real.sqrt
      (ionicStrengthOfR (ppmToIonsForECR (toProfileR kno3Achieved))) := by
    linarith
  have hf : ecOfAchievedR kno3Achieved
      = rawECOfR (ppmToIonsForECR (toProfileR kno3Achieved)) /
        (1 + 1 / 2 * Real.sqrt
          (ionicStrengthOfR (ppmToIonsForECR (toProfileR kno3Achieved)))) := by
    unfold ecOfAchievedR
    exact estimateECR_formula _ hI0
  constructor
  · rw [hf]
    exact div_pos hR0 hden
  · rw [hf]
    calc rawECOfR (ppmToIonsForECR (toProfileR kno3Achieved)) /
          (1 + 1 / 2 * Real.sqrt
            (ionicStrengthOfR (ppmToIonsForECR (toProfileR kno3Achieved))))
        ≤ rawECOfR (ppmToIonsForECR (toProfileR kno3Achieved)) / 1 :=
          div_le_div_of_nonneg_left hR0.le one_pos (by linarith)
      _ = rawECOfR (ppmToIonsForECR (toProfileR kno3Achieved)) := by
          norm_num

/-- Full evaluation of the optimizer on the potassium-nitrate scenario
with `targetEC = 30`: the returned record is the base solve scaled by
the factor produced by the EC convergence loop. -/
theorem kno3_opt_eval :
    optimizeFormula true (fun _ _ => 1) { N := 137, K := 463 } 1 [kno3Fert]
        75 Mode.oxide { useAbsoluteTargets := true, targetEC := 30 }
      = .ok { formula := scaleFormula [("potassium_nitrate_typical", 1)]
                (ecScaleLoop
                  (fun s => ecOfAchievedR (smulAR s kno3Achieved)) 30 5
                  (30 / ecOfAchievedR kno3Achieved))
              achieved := smulAR
                (ecScaleLoop
                  (fun s => ecOfAchievedR (smulAR s kno3Achieved)) 30 5
                  (30 / ecOfAchievedR kno3Achieved)) kno3Achieved
              targetPPM := ppmTargetsOf { N := 137, K := 463 } 75 Mode.oxide
                true } := by
  have hok := kno3_solve (ppmTargetsOf { N := 137, K := 463 } 75 Mode.oxide true)
  have hec1 := (kno3_ec1_bounds).1
  have h30 : (0:ℝ) < 30 := by norm_num
  simp only [optimizeFormula, hok, h30, if_true, ite_true, hec1,
    lt_self_iff_false, if_false, ite_false]

/-- C1 (counterexample): on the single-fertilizer potassium-nitrate
scenario with absolute targets N = 137 ppm and K₂O = 463 ppm (matched
exactly by the base solve) plus a requested `targetEC = 30`, the
optimizer returns a feasible (non-error) result whose target N is the
positive 137 ppm, yet whose achieved N deviates from that target by more
than the 1 % tolerance: the EC convergence loop rescales the whole
profile toward the requested EC with no tolerance re-check. -/
theorem ec_scaling_breaks_tolerance :
    optimizeFormula true (fun _ _ => 1) { N := 137, K := 463 } 1 [kno3Fert]
        75 Mode.oxide { useAbsoluteTargets := true, targetEC := 30 }
      = .ok (okResult (optimizeFormula true (fun _ _ => 1)
          { N := 137, K := 463 } 1 [kno3Fert] 75 Mode.oxide
          { useAbsoluteTargets := true, targetEC := 30 })) ∧
    (okResult (optimizeFormula true (fun _ _ => 1) { N := 137, K := 463 } 1
        [kno3Fert] 75 Mode.oxide
        { useAbsoluteTargets := true, targetEC := 30 })).targetPPM.N_total
      = 137 ∧
    (0.01:ℝ) * 137 <
      |(okResult (optimizeFormula true (fun _ _ => 1) { N := 137, K := 463 } 1
          [kno3Fert] 75 Mode.oxide
          { useAbsoluteTargets := true, targetEC := 30 })).achieved.N_total
        - 137| := by
  obtain ⟨⟨hR0, hR15⟩, hI0⟩ := kno3_ec_bounds
  obtain ⟨hec1, hec1le⟩ := kno3_ec1_bounds
  have hgpos : ∀ s, 0 < s → 0 < ecOfAchievedR (smulAR s kno3Achieved) :=
    fun s hs => (ecOfAchievedR_smul_bounds kno3Achieved s hs hR0 hI0).1
  have hgle : ∀ s, 0 < s →
      ecOfAchievedR (smulAR s kno3Achieved)
        ≤ s * rawECOfR (ppmToIonsForECR (toProfileR kno3Achieved)) :=
    fun s hs => (ecOfAchievedR_smul_bounds kno3Achieved s hs hR0 hI0).2
  have hs1 : 0 < 30 / ecOfAchievedR kno3Achieved :=
    div_pos (by norm_num) hec1
  have hs1ge : 30 / rawECOfR (ppmToIonsForECR (toProfileR kno3Achieved))
      ≤ 30 / ecOfAchievedR kno3Achieved :=
    div_le_div_of_nonneg_left (by norm_num) hec1 hec1le
  have hlb := ecScaleLoop_lower_bound
    (fun s => ecOfAchievedR (smulAR s kno3Achieved)) 30
    (rawECOfR (ppmToIonsForECR (toProfileR kno3Achieved))) hR0 (by norm_num)
    hgpos hgle 5 (30 / ecOfAchievedR kno3Achieved) hs1 hs1ge
  have h2R : (2:ℝ)
      ≤ 30 / rawECOfR (ppmToIonsForECR (toProfileR kno3Achieved)) := by
    have h := div_le_div_of_nonneg_left (show (0:ℝ) ≤ 30 by norm_num) hR0 hR15
    norm_num at h
    exact h
  have hsF2 : (2:ℝ) ≤ ecScaleLoop
      (fun s => ecOfAchievedR (smulAR s kno3Achieved)) 30 5
      (30 / ecOfAchievedR kno3Achieved) := le_trans h2R hlb
  have hN : ∀ s : ℝ, (smulAR s kno3Achieved).N_total = 137 * s := by
    intro s
    norm_num [smulAR, kno3Achieved, mul_comm]
  have key : ∀ s : ℝ, 2 ≤ s → (0.01:ℝ) * 137 < |137 * s - 137| := by
    intro s hs
    rw [abs_of_nonneg (by linarith)]
    linarith
  rw [kno3_opt_eval]
  simp only [okResult]
  refine ⟨trivial, ?_, ?_⟩
  · norm_num [ppmTargetsOf]
  · rw [hN]
    exact key _ hsF2

/-- C1: amended tolerance invariant.  When no positive `targetEC` is
requested (so neither the EC convergence loop nor the Si adjustment loop
runs), `optimizeFormula` returns exactly the base solver result, and
therefore any tolerance bound satisfied by the base solve — for every
nutrient with a positive target, `|achieved − target| ≤ tolerance ·
target` — carries over verbatim to the result actually returned.  (With
a positive `targetEC` the EC scaling can break the invariant, as the
counterexample shows.) -/
theorem tolerance_invariant_without_ec_scaling (lp : Bool)
    (milpSolve : Targets7 → String → ℝ) (targetRatios : RatioTargets)
    (volume : ℝ) (ferts : List Fertilizer) (concentration : ℝ) (mode : Mode)
    (options : OptOptions) (tol : ℝ) (m : MilpResult)
    (hEC : options.targetEC ≤ 0)
    (hok : solveMilpBrowser lp milpSolve ferts
      (ppmTargetsOf targetRatios concentration mode options.useAbsoluteTargets)
      volume = .ok m)
    (hbase : withinTolR tol
      (ppmTargetsOf targetRatios concentration mode options.useAbsoluteTargets)
      m.achieved) :
    optimizeFormula lp milpSolve targetRatios volume ferts concentration mode
        options
      = .ok { formula := m.formula
              achieved := m.achieved
              targetPPM := ppmTargetsOf targetRatios concentration mode
                options.useAbsoluteTargets } ∧
    withinTolR tol
      (ppmTargetsOf targetRatios concentration mode options.useAbsoluteTargets)
      (okResult (optimizeFormula lp milpSolve targetRatios volume ferts
        concentration mode options)).achieved := by
  have heq : optimizeFormula lp milpSolve targetRatios volume ferts
      concentration mode options
      = .ok { formula := m.formula
              achieved := m.achieved
              targetPPM := ppmTargetsOf targetRatios concentration mode
                options.useAbsoluteTargets } := by
    simp only [optimizeFormula, hok]
    rw [if_neg (not_lt.mpr hEC)]
  refine ⟨heq, ?_⟩
  rw [heq]
  simpa only [okResult] using hbase

/-- Witness for C1: the potassium-nitrate scenario with no target EC —
the base solve hits both positive targets exactly, and the returned
result satisfies the 1 % tolerance invariant. -/
theorem tolerance_invariant_without_ec_scaling_witness :
    optimizeFormula true (fun _ _ => 1) { N := 137, K := 463 } 1 [kno3Fert]
        75 Mode.oxide { useAbsoluteTargets := true }
      = .ok { formula := [("potassium_nitrate_typical", 1)]
              achieved := kno3Achieved
              targetPPM := ppmTargetsOf { N := 137, K := 463 } 75 Mode.oxide
                true } ∧
    withinTolR 0.01
      (ppmTargetsOf { N := 137, K := 463 } 75 Mode.oxide true)
      (okResult (optimizeFormula true (fun _ _ => 1) { N := 137, K := 463 } 1
        [kno3Fert] 75 Mode.oxide { useAbsoluteTargets := true })).achieved := by
  have hbase : withinTolR 0.01
      (ppmTargetsOf { N := 137, K := 463 } 75 Mode.oxide true)
      kno3Achieved := by
    have hmode : ¬ (Mode.oxide = Mode.elemental) := by decide
    norm_num [withinTolR, ppmTargetsOf, kno3Achieved, hmode]
  exact tolerance_invariant_without_ec_scaling true (fun _ _ => 1)
    { N := 137, K := 463 } 1 [kno3Fert] 75 Mode.oxide
    { useAbsoluteTargets := true } 0.01
    { formula := [("potassium_nitrate_typical", 1)], achieved := kno3Achieved }
    (by norm_num) (kno3_solve _) hbase

/-- C2 (counterexample): with the MILP dependencies unavailable, the
optimizer does not fall back to any NNLS path — it fails outright with
the "MILP dependencies not loaded" error, even on a trivially solvable
one-fertilizer instance. -/
theorem optimizer_no_fallback_on_missing_milp :
    optimizeFormula false (fun _ _ => 1) { N := 137, K := 463 } 1 [kno3Fert]
        75 Mode.oxide { useAbsoluteTargets := true }
      = .error "MILP dependencies not loaded" := by
  simp [optimizeFormula, solveMilpBrowser]

/-- C2: amended behaviour.  When the MILP dependencies are not loaded,
`optimizeFormula` always propagates the `solveMilpBrowser` failure and
returns the error "MILP dependencies not loaded" — for every solver
oracle, target set, volume, candidate list, concentration, mode and
option record.  There is no fallback path: the standalone NNLS module is
never invoked by the optimizer. -/
theorem optimizer_errors_without_milp
    (milpSolve : Targets7 → String → ℝ) (targetRatios : RatioTargets)
    (volume : ℝ) (ferts : List Fertilizer) (concentration : ℝ) (mode : Mode)
    (options : OptOptions) :
    optimizeFormula false milpSolve targetRatios volume ferts concentration
        mode options
      = .error "MILP dependencies not loaded" := by
  simp [optimizeFormula, solveMilpBrowser]

/-- C9: oxide → element → oxide round-trip with the fixed conversion
constants and the solver's reciprocal factors returns the original value
within `1e-6` for every non-negative value (in exact arithmetic the
round-trip is the identity, so the deviation is `0`). -/
theorem oxide_element_roundtrip (v : ℚ) (hv : 0 ≤ v) :
    |v * OXIDE_CONVERSIONS.P2O5_to_P * P_to_P2O5 - v| ≤ 1 / 1000000 ∧
    |v * OXIDE_CONVERSIONS.K2O_to_K * K_to_K2O - v| ≤ 1 / 1000000 := by
  have hP : v * OXIDE_CONVERSIONS.P2O5_to_P * P_to_P2O5 = v := by
    rw [P_to_P2O5]
    norm_num [OXIDE_CONVERSIONS]
    ring
  have hK : v * OXIDE_CONVERSIONS.K2O_to_K * K_to_K2O = v := by
    rw [K_to_K2O]
    norm_num [OXIDE_CONVERSIONS]
    ring
  rw [hP, hK]
  norm_num

/-- Witness: the round-trip theorem evaluated at `v = 3`. -/
theorem oxide_element_roundtrip_witness :
    |3 * OXIDE_CONVERSIONS.P2O5_to_P * P_to_P2O5 - 3| ≤ 1 / 1000000 ∧
    |3 * OXIDE_CONVERSIONS.K2O_to_K * K_to_K2O - 3| ≤ 1 / 1000000 :=
  oxide_element_roundtrip 3 (by norm_num)

/-- C7: for a fertilizer declaring a speciated nitrogen form (nonzero
`N_NO3` or `N_NH4`), both contribution calculators count only the
speciated forms: the total-N bucket equals the sum of the `N_NO3` and
`N_NH4` contributions, and changing the generic `N_total` percentage to
any value leaves the computed contributions unchanged. -/
theorem speciated_nitrogen_no_double_count (fert : Fertilizer) (volume t : ℚ)
    (h : fert.pct.N_NO3 ≠ 0 ∨ fert.pct.N_NH4 ≠ 0) :
    (perGramContrib volume fert).N_total
        = 10 * fert.pct.N_NO3 / volume + 10 * fert.pct.N_NH4 / volume ∧
      perGramContrib volume { fert with pct := { fert.pct with N_total := t } }
        = perGramContrib volume fert ∧
      (getElementalContributionPerGram fert).N
        = (fert.pct.N_NO3 + fert.pct.N_NH4) * 10 ∧
      getElementalContributionPerGram
          { fert with pct := { fert.pct with N_total := t } }
        = getElementalContributionPerGram fert := by
  refine ⟨?_, ?_, ?_, ?_⟩
  · unfold perGramContrib
    rcases h with h | h <;> simp [h] <;> ring
  · unfold perGramContrib
    rcases h with h | h <;> simp [h]
  · unfold getElementalContributionPerGram
    rcases h with h | h <;> simp [h]
  · unfold getElementalContributionPerGram
    rcases h with h | h <;> simp [h]

/-- Witness for C7: the Calcinit calcium-nitrate entry (15.5 % generic N,
14.4 % nitrate-N, 1.1 % ammonium-N, 19 % Ca) at volume 1 L, with the
generic total replaced by 99: total N is `144 + 11 = 155` ppm/g either way. -/
theorem speciated_nitrogen_no_double_count_witness :
    (perGramContrib 1
        { id := "calcium_nitrate_calcinit_typical",
          pct := { N_total := 15.5, N_NO3 := 14.4, N_NH4 := 1.1, Ca := 19.0 } }).N_total
      = 10 * 14.4 / 1 + 10 * 1.1 / 1 ∧
    (getElementalContributionPerGram
        { id := "calcium_nitrate_calcinit_typical",
          pct := { N_total := 99, N_NO3 := 14.4, N_NH4 := 1.1, Ca := 19.0 } })
      = getElementalContributionPerGram
        { id := "calcium_nitrate_calcinit_typical",
          pct := { N_total := 15.5, N_NO3 := 14.4, N_NH4 := 1.1, Ca := 19.0 } } := by
  have h := speciated_nitrogen_no_double_count
    { id := "calcium_nitrate_calcinit_typical",
      pct := { N_total := 15.5, N_NO3 := 14.4, N_NH4 := 1.1, Ca := 19.0 } }
    1 99 (by norm_num)
  exact ⟨h.1, h.2.2.2⟩

/-- C8: for a fertilizer whose composition has no oxide entries, the
contribution of `g` grams in `V` liters is linear, `percent * 10 * g / V`
ppm for each elemental nutrient entry; in particular 1 g of the catalog's
Calcinit calcium nitrate in 1 L yields exactly N = 155 ppm (144 nitrate +
11 ammonium) and Ca = 190 ppm, on both the solver's achieved-ppm path and
the elemental per-gram path. -/
theorem elemental_contribution_linear (fert : Fertilizer) (g V : ℚ)
    (hox : fert.pct.P2O5 = 0 ∧ fert.pct.K2O = 0 ∧ fert.pct.CaO = 0 ∧
      fert.pct.MgO = 0 ∧ fert.pct.SO3 = 0 ∧ fert.pct.SiO2 = 0 ∧
      fert.pct.SiOH4 = 0)
    (hV : 0 < V) :
    ((fertContribA V fert g).N_NO3 = fert.pct.N_NO3 * 10 * g / V ∧
       (fertContribA V fert g).N_NH4 = fert.pct.N_NH4 * 10 * g / V ∧
       (fertContribA V fert g).P = fert.pct.P * 10 * g / V ∧
       (fertContribA V fert g).K = fert.pct.K * 10 * g / V ∧
       (fertContribA V fert g).Ca = fert.pct.Ca * 10 * g / V ∧
       (fertContribA V fert g).Mg = fert.pct.Mg * 10 * g / V ∧
       (fertContribA V fert g).S = fert.pct.S * 10 * g / V ∧
       (fertContribA V fert g).Si = fert.pct.Si * 10 * g / V) ∧
      achievedFromFormula FERTILIZERS 1 [("calcium_nitrate_calcinit_typical", 1)]
        = { N_total := 155, N_NO3 := 144, N_NH4 := 11, Ca := 190 } ∧
      (getElementalContributionPerGram
          { id := "calcium_nitrate_calcinit_typical",
            pct := { N_total := 15.5, N_NO3 := 14.4, N_NH4 := 1.1, Ca := 19.0 } }).N
          = 155 ∧
      (getElementalContributionPerGram
          { id := "calcium_nitrate_calcinit_typical",
            pct := { N_total := 15.5, N_NO3 := 14.4, N_NH4 := 1.1, Ca := 19.0 } }).Ca
          = 190 := by
  obtain ⟨h1, h2, h3, h4, h5, h6, h7⟩ := hox
  refine ⟨⟨?_, ?_, ?_, ?_, ?_, ?_, ?_, ?_⟩, ?_, ?_, ?_⟩
  · unfold fertContribA; simp; ring
  · unfold fertContribA; simp; ring
  · unfold fertContribA; simp [h1]; ring
  · unfold fertContribA; simp [h2]; ring
  · unfold fertContribA; simp [h3]; ring
  · unfold fertContribA; simp [h4]; ring
  · unfold fertContribA; simp [h5]; ring
  · unfold fertContribA; simp [h6, h7]; ring
  · norm_num [achievedFromFormula, findFert, FERTILIZERS, fertContribA,
      Achieved.add]
  · norm_num [getElementalContributionPerGram]
  · norm_num [getElementalContributionPerGram]

/-- Witness for C8: 2 g of Epsom salt (9.86 % Mg, 13 % S, no oxides) in
4 L, and the Calcinit scenario itself, via the theorem. -/
theorem elemental_contribution_linear_witness :
    ((fertContribA 4
        { id := "magnesium_sulfate_heptahydrate_common",
          pct := { Mg := 9.86, S := 13.0 } } 2).Mg = 9.86 * 10 * 2 / 4 ∧
      (fertContribA 4
        { id := "magnesium_sulfate_heptahydrate_common",
          pct := { Mg := 9.86, S := 13.0 } } 2).S = 13.0 * 10 * 2 / 4) ∧
    achievedFromFormula FERTILIZERS 1 [("calcium_nitrate_calcinit_typical", 1)]
      = { N_total := 155, N_NO3 := 144, N_NH4 := 11, Ca := 190 } := by
  have h := elemental_contribution_linear
    { id := "magnesium_sulfate_heptahydrate_common",
      pct := { Mg := 9.86, S := 13.0 } } 2 4
    (by norm_num) (by norm_num)
  exact ⟨⟨h.1.2.2.2.2.2.1, h.1.2.2.2.2.2.2.1⟩, h.2.1⟩

end FertCore
